import Mathlib

/-!
Shallow embedding of the booksystem library-inventory engine.

The Python source drives a PostgreSQL schema in which the business rules
live in CHECK constraints, a partial unique index, and PL/pgSQL trigger
functions.  Each definition below translates one SQL/PL/pgSQL unit or one
repository method; a raised exception aborts the whole SQL statement, so
fallible operations either return the fully-updated state or report an
error while the caller keeps the original state.
-/

namespace BookSystem

/-- Column `book_type` of table `books`: CHECK (book_type IN ('physical', 'digital')). -/
inductive BookType where
  | physical
  | digital
deriving DecidableEq, Repr

/-- Column `status` of `books`: CHECK (status IN ('available','loaned','maintenance','lost')). -/
inductive BookStatus where
  | available
  | loaned
  | maintenance
  | lost
deriving DecidableEq, Repr

/-- Column `status` of `students`: CHECK (status IN ('active','inactive','graduated')). -/
inductive StudentStatus where
  | active
  | inactive
  | graduated
deriving DecidableEq, Repr

/-- Column `loan_status` of `loans`: CHECK (loan_status IN ('active','returned','overdue','lost')). -/
inductive LoanStatus where
  | active
  | returned
  | overdue
  | lost
deriving DecidableEq, Repr

/-- Errors corresponding to the RAISE EXCEPTION sites of the PL/pgSQL
functions, to constraint violations, and to unique-index violations. -/
inductive DBError where
  | shelfNotFound
  | negativeCount
  | capacityExceeded
  | bookNotFound
  | bookUnavailable
  | studentNotFound
  | studentInactive
  | loanLimitReached
  | uniqueActiveLoanViolation
  | checkViolation
  | ambiguousColumn
deriving DecidableEq, Repr

/-- A row of table `shelves` (columns relevant to the circulation engine).
Dates and counts are modelled as integers. -/
structure Shelf where
  shelf_id : Nat
  total_capacity : Int
  current_book_count : Int
deriving DecidableEq, Repr

/-- A row of table `books` (columns relevant to the circulation engine). -/
structure Book where
  book_id : Nat
  book_type : BookType
  shelf_id : Option Nat
  status : BookStatus
deriving DecidableEq, Repr

/-- A row of table `students` (columns relevant to the circulation engine). -/
structure Student where
  student_id : Nat
  status : StudentStatus
deriving DecidableEq, Repr

/-- A row of table `loans`.  Dates are day numbers (Int). -/
structure Loan where
  loan_id : Nat
  book_id : Nat
  student_id : Nat
  loan_date : Int
  estimated_return_date : Int
  actual_return_date : Option Int
  loan_status : LoanStatus
  renewal_count : Nat
deriving DecidableEq, Repr

/-- The database: the four tables of the schema, each a list of rows. -/
structure DBState where
  shelves : List Shelf
  books : List Book
  students : List Student
  loans : List Loan
deriving DecidableEq, Repr

/-- The empty database, as produced by the table managers before any row insert. -/
def initState : DBState := ⟨[], [], [], []⟩

/-- Row lookup `SELECT ... FROM shelves WHERE shelf_id = %s` (first match). -/
def findShelf (s : DBState) (sid : Nat) : Option Shelf :=
  s.shelves.find? (fun t => t.shelf_id == sid)

/-- Row lookup `SELECT ... FROM books WHERE book_id = %s` (first match). -/
def findBook (s : DBState) (bid : Nat) : Option Book :=
  s.books.find? (fun t => t.book_id == bid)

/-- Row lookup `SELECT ... FROM students WHERE student_id = %s` (first match). -/
def findStudent (s : DBState) (sid : Nat) : Option Student :=
  s.students.find? (fun t => t.student_id == sid)

/-- Row lookup `SELECT ... FROM loans WHERE loan_id = %s` (first match). -/
def findLoan (s : DBState) (lid : Nat) : Option Loan :=
  s.loans.find? (fun t => t.loan_id == lid)

/-- Recorded occupancy of a shelf: its cached `current_book_count` column. -/
def shelfRecordedCount (s : DBState) (sid : Nat) : Option Int :=
  (findShelf s sid).map Shelf.current_book_count

/-- Predicate used by the physical-book filters of the SQL views and of the
auditor queries. -/
def isPhysical : BookType → Bool
  | .physical => true
  | .digital => false

/-- True occupancy of a shelf: `COUNT(*) FROM books WHERE books.shelf_id =
shelves.shelf_id AND books.book_type = 'physical'`. -/
def actualBookCount (s : DBState) (sid : Nat) : Nat :=
  (s.books.filter (fun b => b.shelf_id == some sid && isPhysical b.book_type)).length

/-- PL/pgSQL `check_shelf_capacity(shelf_id_param)`: raises when the shelf is
missing, otherwise compares `current_book_count < total_capacity`. -/
def check_shelf_capacity (s : DBState) (sid : Nat) : Except DBError Bool :=
  match findShelf s sid with
  | none => .error .shelfNotFound
  | some sh => .ok (decide (sh.current_book_count < sh.total_capacity))

/-- PL/pgSQL `update_shelf_book_count(shelf_id_param, count_change)`: computes
`current_book_count + count_change`, raises on a missing shelf, a negative
result, or a result above `total_capacity`, otherwise updates the row. -/
def update_shelf_book_count (s : DBState) (sid : Nat) (delta : Int) :
    Except DBError DBState :=
  match findShelf s sid with
  | none => .error .shelfNotFound
  | some sh =>
    if sh.current_book_count + delta < 0 then .error .negativeCount
    else if sh.total_capacity < sh.current_book_count + delta then .error .capacityExceeded
    else
      let shelves' := s.shelves.map (fun t =>
        if t.shelf_id == sid then { t with current_book_count := sh.current_book_count + delta }
        else t)
      .ok { s with shelves := shelves' }

/-- Auditor query `validate_capacity_consistency`: per shelf, the recomputed
physical-book count is compared to the cached one, and only the MISMATCH rows
are returned as (shelf id, recorded count, actual count). -/
def validate_capacity_consistency (s : DBState) : List (Nat × Int × Nat) :=
  (s.shelves.filter
    (fun sh => !(sh.current_book_count == (actualBookCount s sh.shelf_id : Int)))).map
    (fun sh => (sh.shelf_id, sh.current_book_count, actualBookCount s sh.shelf_id))

/-- Auditor command `fix_capacity_counts`: `UPDATE shelves SET
current_book_count = (SELECT COUNT(*) FROM books WHERE books.shelf_id =
shelves.shelf_id AND books.book_type = 'physical')` with no WHERE clause.
Every rewritten row is re-checked against `chk_current_book_count_valid`
(`current_book_count >= 0 AND current_book_count <= total_capacity`): if any
shelf's recomputed count exceeds its capacity the single UPDATE aborts as a
whole, the caller catches the error and returns 0 with nothing changed.
Otherwise the returned number is the cursor rowcount, i.e. every shelf row. -/
def fix_capacity_counts (s : DBState) : Nat × DBState :=
  if s.shelves.all (fun sh =>
      decide ((actualBookCount s sh.shelf_id : Int) ≤ sh.total_capacity)) then
    let shelves' := s.shelves.map (fun sh =>
      { sh with current_book_count := (actualBookCount s sh.shelf_id : Int) })
    (s.shelves.length, { s with shelves := shelves' })
  else (0, s)

/-- CHECK constraints `chk_physical_book_has_shelf` (book_type = 'digital' OR
shelf_id IS NOT NULL) and `chk_digital_book_no_shelf` (book_type = 'physical'
OR shelf_id IS NULL) of table `books`. -/
def checkBookRow (b : Book) : Bool :=
  match b.book_type, b.shelf_id with
  | .physical, none => false
  | .digital, some _ => false
  | _, _ => true

/-- BEFORE trigger `validate_book_shelf_placement`: for a physical book with a
shelf assignment, `check_shelf_capacity` must hold (raising on a missing
shelf, and raising 'at full capacity' when it returns false). -/
def validate_book_shelf_placement (s : DBState) (b : Book) : Except DBError Unit :=
  if b.book_type = .physical then
    match b.shelf_id with
    | some sid =>
      match check_shelf_capacity s sid with
      | .error e => .error e
      | .ok true => .ok ()
      | .ok false => .error .capacityExceeded
    | none => .ok ()
  else .ok ()

/-- Effect of the BEFORE trigger on a statement `UPDATE books SET status = st
WHERE book_id = bid` (the writes issued by the loan triggers): every rewritten
row re-enters `validate_book_shelf_placement`, so a physical book sitting on a
full (or missing) shelf makes the whole statement abort even though only its
status column changes.  True iff every rewritten row passes. -/
def booksStatusUpdateOk (s : DBState) (bid : Nat) (st : BookStatus) : Bool :=
  s.books.all (fun b =>
    if b.book_id == bid then
      match validate_book_shelf_placement s { b with status := st } with
      | .ok _ => true
      | .error _ => false
    else true)

/-- The guarded `IF shelf_id IS NOT NULL THEN PERFORM
update_shelf_book_count(shelf_id, delta)` pattern of the trigger blocks. -/
def adjustOptShelf (s : DBState) (o : Option Nat) (d : Int) : Except DBError DBState :=
  match o with
  | some sid => update_shelf_book_count s sid d
  | none => .ok s

/-- INSERT branch of AFTER trigger `update_shelf_count_on_book_change`. -/
def shelfCountTriggerInsert (b : Book) (s : DBState) : Except DBError DBState :=
  if b.shelf_id ≠ none ∧ b.book_type = .physical then adjustOptShelf s b.shelf_id 1
  else .ok s

/-- DELETE branch of AFTER trigger `update_shelf_count_on_book_change`. -/
def shelfCountTriggerDelete (b : Book) (s : DBState) : Except DBError DBState :=
  if b.shelf_id ≠ none ∧ b.book_type = .physical then adjustOptShelf s b.shelf_id (-1)
  else .ok s

/-- UPDATE branch of AFTER trigger `update_shelf_count_on_book_change`: the
shelf-change block (OLD.shelf_id IS DISTINCT FROM NEW.shelf_id AND
NEW.book_type = 'physical') runs first, then the type-change block
(OLD.book_type IS DISTINCT FROM NEW.book_type); both blocks call
`update_shelf_book_count`, whose exception aborts the whole statement. -/
def shelfCountTriggerUpdate (old new : Book) (s : DBState) : Except DBError DBState :=
  match ((if old.shelf_id ≠ new.shelf_id ∧ new.book_type = .physical then
          match adjustOptShelf s old.shelf_id (-1) with
          | .error e => .error e
          | .ok s1 => adjustOptShelf s1 new.shelf_id 1
        else .ok s) : Except DBError DBState) with
  | .error e => .error e
  | .ok s1 =>
    if old.book_type ≠ new.book_type then
      match ((if old.book_type = .physical then adjustOptShelf s1 old.shelf_id (-1)
             else .ok s1) : Except DBError DBState) with
      | .error e => .error e
      | .ok s2 =>
        if new.book_type = .physical then adjustOptShelf s2 new.shelf_id 1
        else .ok s2
    else .ok s1

/-- SERIAL primary key of `books`: the next value after the largest id in use. -/
def freshBookId (s : DBState) : Nat :=
  (s.books.foldr (fun b m => max b.book_id m) 0) + 1

/-- An INSERT INTO books (repository `create`): the BEFORE placement trigger
fires, the row CHECK constraints are verified, the row is inserted, and the
AFTER trigger adjusts the shelf count. -/
def create_book (s : DBState) (bt : BookType) (shelf : Option Nat)
    (bst : BookStatus) : Except DBError (DBState × Nat) :=
  let bid := freshBookId s
  let row : Book := ⟨bid, bt, shelf, bst⟩
  match validate_book_shelf_placement s row with
  | .error e => .error e
  | .ok _ =>
    if checkBookRow row then
      let s1 := { s with books := row :: s.books }
      match shelfCountTriggerInsert row s1 with
      | .error e => .error e
      | .ok s2 => .ok (s2, bid)
    else .error .checkViolation

/-- A DELETE FROM books (repository `delete`): the FK `ON DELETE CASCADE`
removes the book's loans first, then the AFTER DELETE trigger decrements the
shelf count of a placed physical book; a trigger exception aborts the
statement, leaving the caller's state unchanged. -/
def delete_book (s : DBState) (bid : Nat) : Bool × DBState :=
  match findBook s bid with
  | none => (false, s)
  | some b =>
    let s1 := { s with books := s.books.filter (fun x => !(x.book_id == bid)),
                       loans := s.loans.filter (fun l => !(l.book_id == bid)) }
    match shelfCountTriggerDelete b s1 with
    | .error _ => (false, s)
    | .ok s2 => (true, s2)

/-- Repository `move_book_to_shelf`: `UPDATE books SET shelf_id = %s WHERE
book_id = %s AND book_type = 'physical'`; zero matched rows yield False, and
a trigger exception (BEFORE capacity validation or AFTER count maintenance)
aborts the statement and yields False with the state unchanged. -/
def move_book_to_shelf (s : DBState) (bid : Nat) (newShelf : Nat) : Bool × DBState :=
  match findBook s bid with
  | none => (false, s)
  | some old =>
    if old.book_type = .physical then
      let new : Book := { old with shelf_id := some newShelf }
      match validate_book_shelf_placement s new with
      | .error _ => (false, s)
      | .ok _ =>
        if checkBookRow new then
          let s1 := { s with books := s.books.map (fun b =>
            if b.book_id == bid then new else b) }
          match shelfCountTriggerUpdate old new s1 with
          | .error _ => (false, s)
          | .ok s2 => (true, s2)
        else (false, s)
    else (false, s)

/-- Repository `update` on books restricted to the `book_type` and `shelf_id`
columns: `UPDATE books SET book_type = %s, shelf_id = %s WHERE book_id = %s`,
with the BEFORE placement trigger, the row CHECK constraints and the AFTER
count-maintenance trigger. -/
def update_book_type_shelf (s : DBState) (bid : Nat) (newType : BookType)
    (newShelf : Option Nat) : Bool × DBState :=
  match findBook s bid with
  | none => (false, s)
  | some old =>
    let new : Book := { old with book_type := newType, shelf_id := newShelf }
    match validate_book_shelf_placement s new with
    | .error _ => (false, s)
    | .ok _ =>
      if checkBookRow new then
        let s1 := { s with books := s.books.map (fun b =>
          if b.book_id == bid then new else b) }
        match shelfCountTriggerUpdate old new s1 with
        | .error _ => (false, s)
        | .ok s2 => (true, s2)
      else (false, s)

/-- Membership test of the partial-index / open-loan domain: `loan_status IN
('active', 'overdue')`. -/
def isOpen : LoanStatus → Bool
  | .active => true
  | .overdue => true
  | _ => false

/-- Status test `loan_status = 'active'`. -/
def isActive : LoanStatus → Bool
  | .active => true
  | _ => false

/-- Rows of the domain of the partial unique index
`idx_loans_unique_active_book` for one book: loans of that book whose status
is in ('active', 'overdue'). -/
def openLoansForBook (loans : List Loan) (bid : Nat) : List Loan :=
  loans.filter (fun l => l.book_id == bid && isOpen l.loan_status)

/-- Count used by the loan-limit rule of `validate_loan_creation`:
`COUNT(*) FROM loans WHERE student_id = %s AND loan_status IN
('active', 'overdue')`. -/
def openLoanCountForStudent (loans : List Loan) (sid : Nat) : Nat :=
  (loans.filter (fun l => l.student_id == sid && isOpen l.loan_status)).length

/-- The row CHECK constraints of table `loans`, re-verified on every INSERT
and UPDATE of a row: `chk_loan_date_not_future`,
`chk_estimated_return_after_loan`, `chk_actual_return_after_loan`,
`chk_returned_loan_has_return_date`, `chk_active_loan_no_return_date` and
`chk_reasonable_loan_period` (the renewal count is a Nat, so
`chk_renewal_count_positive` always holds). -/
def checkLoanRow (today : Int) (l : Loan) : Bool :=
  decide (l.loan_date ≤ today) &&
  decide (l.loan_date < l.estimated_return_date) &&
  (match l.actual_return_date with
   | none => true
   | some d => decide (l.loan_date ≤ d)) &&
  (match l.loan_status, l.actual_return_date with
   | .returned, none => false
   | _, _ => true) &&
  (match l.loan_status, l.actual_return_date with
   | .active, some _ => false
   | _, _ => true) &&
  decide (l.estimated_return_date ≤ l.loan_date + 365)

/-- PL/pgSQL `calculate_estimated_return_date(loan_date_param,
book_type_param)`: the digital loan period is 7 days, the default one 14. -/
def calculate_estimated_return_date (loanDate : Int) (bt : BookType) : Int :=
  match bt with
  | .digital => loanDate + 7
  | .physical => loanDate + 14

/-- The same SQL function on a possibly NULL `book_type_param` (the value the
trigger would pass if its ambiguous SELECT resolved `book_type` to the
never-assigned PL/pgSQL variable): `IF book_type_param = 'digital'` is not
true for NULL, so the ELSE branch yields the 14-day default. -/
def calculate_estimated_return_date_nullable (loanDate : Int) (bt : Option BookType) : Int :=
  match bt with
  | some .digital => loanDate + 7
  | _ => loanDate + 14

/-- SERIAL primary key of `loans`. -/
def freshLoanId (s : DBState) : Nat :=
  (s.loans.foldr (fun l m => max l.loan_id m) 0) + 1

/-- SERIAL primary key of `shelves`. -/
def freshShelfId (s : DBState) : Nat :=
  (s.shelves.foldr (fun t m => max t.shelf_id m) 0) + 1

/-- SERIAL primary key of `students`. -/
def freshStudentId (s : DBState) : Nat :=
  (s.students.foldr (fun t m => max t.student_id m) 0) + 1

/-- An INSERT INTO loans as the trigger text evidently intends it: BEFORE
trigger `validate_loan_creation` (book must exist and be available, student
must exist and be active, the student's open loans must number fewer than 5,
and a missing estimated return date is defaulted via
`calculate_estimated_return_date`), then the row CHECK constraints, then the
partial unique index `idx_loans_unique_active_book`, then the AFTER trigger
`update_book_status_on_loan_change` marks the book loaned.  The inserted row
takes the column defaults `loan_status = 'active'`, `renewal_count = 0` and
`actual_return_date = NULL`; a missing loan date defaults to today (`DEFAULT
CURRENT_DATE`).  This reading resolves the trigger's `SELECT status,
book_type INTO book_status, book_type` to the `books` columns; what the
trigger does as executed is `create_loan_exec` below, and this intended
transition is kept as a strictly more permissive cover of the program's
loans-writes for the reachability development. -/
def create_loan (s : DBState) (today : Int) (bookId studentId : Nat)
    (loanDate? : Option Int) (est? : Option Int) : Except DBError (DBState × Nat) :=
  let loanDate := loanDate?.getD today
  match findBook s bookId with
  | none => .error .bookNotFound
  | some bk =>
    if bk.status = .available then
      match findStudent s studentId with
      | none => .error .studentNotFound
      | some stu =>
        if stu.status = .active then
          if openLoanCountForStudent s.loans studentId < 5 then
            let est := est?.getD (calculate_estimated_return_date loanDate bk.book_type)
            let lid := freshLoanId s
            let row : Loan := ⟨lid, bookId, studentId, loanDate, est, none, .active, 0⟩
            if checkLoanRow today row then
              if (openLoansForBook s.loans bookId).isEmpty then
                let books' := s.books.map (fun b =>
                  if b.book_id == bookId then { b with status := .loaned } else b)
                .ok ({ s with loans := row :: s.loans, books := books' }, lid)
              else .error .uniqueActiveLoanViolation
            else .error .checkViolation
          else .error .loanLimitReached
        else .error .studentInactive
    else .error .bookUnavailable

/-- An INSERT INTO loans as PostgreSQL executes it.  The BEFORE trigger
`validate_loan_creation` declares a variable `book_type` and its first
statement is `SELECT status, book_type INTO book_status, book_type FROM books
WHERE book_id = NEW.book_id`, where `book_type` names both that variable and
a `books` column; under the default `plpgsql.variable_conflict = error` this
raises `column reference "book_type" is ambiguous` before any eligibility
check runs, so every INSERT INTO loans aborts with that error regardless of
the database contents or the inserted values. -/
def create_loan_exec (s : DBState) (today : Int) (bookId studentId : Nat)
    (loanDate? : Option Int) (est? : Option Int) : Except DBError (DBState × Nat) :=
  .error .ambiguousColumn

/-- Repository `return_book`: `UPDATE loans SET loan_status = 'returned',
actual_return_date = %s WHERE loan_id = %s AND loan_status IN ('active',
'overdue')`; the return date defaults to today.  Zero matched rows yield
False; a CHECK violation on an updated row (`chk_actual_return_after_loan`)
aborts the statement.  The AFTER trigger sets the book of each updated loan
back to 'available' through an `UPDATE books` whose rewritten rows re-enter
the BEFORE placement validation (`booksStatusUpdateOk`); a failing
revalidation aborts the whole return. -/
def return_book (s : DBState) (today : Int) (lid : Nat) (rd? : Option Int) :
    Bool × DBState :=
  let rd := rd?.getD today
  let matching := s.loans.filter (fun l => l.loan_id == lid && isOpen l.loan_status)
  if matching.isEmpty then (false, s)
  else if matching.all (fun l =>
      checkLoanRow today { l with loan_status := .returned, actual_return_date := some rd }) then
    if matching.all (fun l => booksStatusUpdateOk s l.book_id .available) then
      let loans' := s.loans.map (fun l =>
        if l.loan_id == lid && isOpen l.loan_status then
          { l with loan_status := .returned, actual_return_date := some rd }
        else l)
      let books' := s.books.map (fun b =>
        if matching.any (fun l => l.book_id == b.book_id) then { b with status := .available }
        else b)
      (true, { s with loans := loans', books := books' })
    else (false, s)
  else (false, s)

/-- Repository `renew_loan`: `UPDATE loans SET estimated_return_date = %s,
renewal_count = renewal_count + 1 WHERE loan_id = %s AND loan_status =
'active'`; a CHECK violation on an updated row aborts the statement, and the
book-status trigger fires no branch since the status does not change. -/
def renew_loan (s : DBState) (today : Int) (lid : Nat) (newDate : Int) :
    Bool × DBState :=
  let matching := s.loans.filter (fun l => l.loan_id == lid && isActive l.loan_status)
  if matching.isEmpty then (false, s)
  else if matching.all (fun l =>
      checkLoanRow today { l with estimated_return_date := newDate,
                                  renewal_count := l.renewal_count + 1 }) then
    let loans' := s.loans.map (fun l =>
      if l.loan_id == lid && isActive l.loan_status then
        { l with estimated_return_date := newDate, renewal_count := l.renewal_count + 1 }
      else l)
    (true, { s with loans := loans' })
  else (false, s)

/-- UPDATE branch of AFTER trigger `update_book_status_on_loan_change`: the
book status written for a loan whose status moves from `oldSt` to `newSt`
(none when no branch of the trigger fires). -/
def bookStatusUpdateEffect (oldSt newSt : LoanStatus) : Option BookStatus :=
  if oldSt ≠ .returned ∧ newSt = .returned then some .available
  else if oldSt = .returned ∧ (newSt = .active ∨ newSt = .overdue) then some .loaned
  else if oldSt ≠ .lost ∧ newSt = .lost then some .lost
  else none

/-- Repository `update_status` on loans: `UPDATE loans SET loan_status = %s
WHERE loan_id = %s`.  The updated row is re-checked against the row CHECK
constraints, a row entering the domain of the partial unique index
`idx_loans_unique_active_book` must not collide with another open loan of the
same book, and the AFTER trigger adjusts the book status. -/
def update_status (s : DBState) (today : Int) (lid : Nat) (ns : LoanStatus) :
    Bool × DBState :=
  match findLoan s lid with
  | none => (false, s)
  | some L =>
    if checkLoanRow today { L with loan_status := ns } then
      if isOpen ns && s.loans.any (fun x =>
          !(x.loan_id == lid) && x.book_id == L.book_id && isOpen x.loan_status) then
        (false, s)
      else
        let loans' := s.loans.map (fun x =>
          if x.loan_id == lid then { x with loan_status := ns } else x)
        let books' :=
          match bookStatusUpdateEffect L.loan_status ns with
          | none => s.books
          | some bst => s.books.map (fun b =>
              if b.book_id == L.book_id then { b with status := bst } else b)
        (true, { s with loans := loans', books := books' })
    else (false, s)

/-- Qualification test of PL/pgSQL `update_overdue_loans`: `loan_status =
'active' AND actual_return_date IS NULL AND estimated_return_date <
CURRENT_DATE`. -/
def sweepQualifies (today : Int) (l : Loan) : Bool :=
  isActive l.loan_status && l.actual_return_date == none &&
    decide (l.estimated_return_date < today)

/-- PL/pgSQL `update_overdue_loans()`: bulk `UPDATE loans SET loan_status =
'overdue'` over the qualifying rows, returning the row count; the book-status
trigger fires no branch on an active-to-overdue change. -/
def update_overdue_loans (s : DBState) (today : Int) : Nat × DBState :=
  let n := (s.loans.filter (sweepQualifies today)).length
  let loans' := s.loans.map (fun l =>
    if sweepQualifies today l then { l with loan_status := .overdue } else l)
  (n, { s with loans := loans' })

/-- A DELETE FROM loans by id: the DELETE branch of AFTER trigger
`update_book_status_on_loan_change` sets the book of a deleted 'active' or
'overdue' loan back to 'available' and leaves it untouched otherwise.  The
book release is an `UPDATE books` whose rewritten rows re-enter the BEFORE
placement validation (`booksStatusUpdateOk`); a failing revalidation aborts
the whole deletion. -/
def delete_loan (s : DBState) (lid : Nat) : Bool × DBState :=
  let removed := s.loans.filter (fun l => l.loan_id == lid)
  if removed.isEmpty then (false, s)
  else if removed.all (fun l =>
      if isOpen l.loan_status then booksStatusUpdateOk s l.book_id .available else true) then
    let loans' := s.loans.filter (fun l => !(l.loan_id == lid))
    let books' := s.books.map (fun b =>
      if removed.any (fun l => isOpen l.loan_status && l.book_id == b.book_id) then
        { b with status := .available }
      else b)
    (true, { s with loans := loans', books := books' })
  else (false, s)

/-- An INSERT INTO shelves (repository `create`): `current_book_count` takes
its column default 0, and `chk_total_capacity_positive` requires a positive
capacity. -/
def create_shelf (s : DBState) (cap : Int) : Except DBError (DBState × Nat) :=
  if cap ≤ 0 then .error .checkViolation
  else
    let sid := freshShelfId s
    .ok ({ s with shelves := ⟨sid, cap, 0⟩ :: s.shelves }, sid)

/-- An INSERT INTO students (repository `create`); the status defaults to
'active' but any of the three legal values may be supplied. -/
def create_student (s : DBState) (stst : StudentStatus) : DBState × Nat :=
  let sid := freshStudentId s
  ({ s with students := ⟨sid, stst⟩ :: s.students }, sid)

/-- A DELETE FROM students: the FK `ON DELETE CASCADE` removes the student's
loans, and each cascaded deletion fires the loan DELETE trigger, releasing
the books of the open ones. -/
def delete_student (s : DBState) (sid : Nat) : Bool × DBState :=
  match findStudent s sid with
  | none => (false, s)
  | some _ =>
    let removed := s.loans.filter (fun l => l.student_id == sid)
    let loans' := s.loans.filter (fun l => !(l.student_id == sid))
    let books' := s.books.map (fun b =>
      if removed.any (fun l => isOpen l.loan_status && l.book_id == b.book_id) then
        { b with status := .available }
      else b)
    (true, { s with students := s.students.filter (fun x => !(x.student_id == sid)),
                    loans := loans', books := books' })

/-- One mutation of the database through the operation surface of the engine:
row creation and deletion for the four tables, shelf reassignment and
book-type updates, and the loan lifecycle operations. -/
inductive Step : DBState → DBState → Prop where
  | createShelf (s : DBState) (cap : Int) (s' : DBState) (sid : Nat) :
      create_shelf s cap = .ok (s', sid) → Step s s'
  | createStudent (s : DBState) (stst : StudentStatus) (s' : DBState) (sid : Nat) :
      create_student s stst = (s', sid) → Step s s'
  | createBook (s : DBState) (bt : BookType) (shelf : Option Nat) (bst : BookStatus)
      (s' : DBState) (bid : Nat) :
      create_book s bt shelf bst = .ok (s', bid) → Step s s'
  | createLoan (s : DBState) (today : Int) (bookId studentId : Nat)
      (loanDate? est? : Option Int) (s' : DBState) (lid : Nat) :
      create_loan s today bookId studentId loanDate? est? = .ok (s', lid) → Step s s'
  | returnBook (s : DBState) (today : Int) (lid : Nat) (rd? : Option Int)
      (ok : Bool) (s' : DBState) :
      return_book s today lid rd? = (ok, s') → Step s s'
  | renewLoan (s : DBState) (today : Int) (lid : Nat) (newDate : Int)
      (ok : Bool) (s' : DBState) :
      renew_loan s today lid newDate = (ok, s') → Step s s'
  | updateStatus (s : DBState) (today : Int) (lid : Nat) (ns : LoanStatus)
      (ok : Bool) (s' : DBState) :
      update_status s today lid ns = (ok, s') → Step s s'
  | sweep (s : DBState) (today : Int) (n : Nat) (s' : DBState) :
      update_overdue_loans s today = (n, s') → Step s s'
  | deleteLoan (s : DBState) (lid : Nat) (ok : Bool) (s' : DBState) :
      delete_loan s lid = (ok, s') → Step s s'
  | deleteBook (s : DBState) (bid : Nat) (ok : Bool) (s' : DBState) :
      delete_book s bid = (ok, s') → Step s s'
  | deleteStudent (s : DBState) (sid : Nat) (ok : Bool) (s' : DBState) :
      delete_student s sid = (ok, s') → Step s s'
  | moveBook (s : DBState) (bid sid : Nat) (ok : Bool) (s' : DBState) :
      move_book_to_shelf s bid sid = (ok, s') → Step s s'
  | updateBook (s : DBState) (bid : Nat) (bt : BookType) (shelf : Option Nat)
      (ok : Bool) (s' : DBState) :
      update_book_type_shelf s bid bt shelf = (ok, s') → Step s s'

/-- States reachable from the empty database through the operation surface. -/
inductive Reachable : DBState → Prop where
  | init : Reachable initState
  | step {s s' : DBState} : Reachable s → Step s s' → Reachable s'

/-- Invariant carried through the reachability proof: the loan primary key is
unique, and every book has at most one loan in the open (active/overdue)
statuses. -/
def LoanInv (s : DBState) : Prop :=
  (s.loans.map Loan.loan_id).Nodup ∧
  ∀ b : Nat, (openLoansForBook s.loans b).length ≤ 1

/-- Concrete database with one shelf of capacity 5 holding 2 books, used to
exercise the ledger adjustment. -/
def ledgerWitnessState : DBState :=
  ⟨[⟨1, 5, 2⟩], [⟨1, .physical, some 1, .available⟩, ⟨2, .physical, some 1, .available⟩], [], []⟩

/-- Concrete database with one drifted shelf (recorded 3, actual 1) and one
consistent shelf (recorded 0, actual 0). -/
def driftState : DBState :=
  ⟨[⟨1, 5, 3⟩, ⟨2, 5, 0⟩], [⟨1, .physical, some 1, .available⟩], [], []⟩

/-- Concrete database whose single shelf has a recorded count equal to the
placed physical books plus one, used to exercise the auditor. -/
def auditWitnessState : DBState :=
  ⟨[⟨4, 10, 3⟩], [⟨1, .physical, some 4, .available⟩, ⟨2, .physical, some 4, .loaned⟩], [], []⟩

/-- Concrete database for the book-type-change trigger: one shelf of
capacity 2 holding no books, and one digital book. -/
def typeChangeState : DBState :=
  ⟨[⟨1, 2, 0⟩], [⟨7, .digital, none, .available⟩], [], []⟩

/-- A loan that qualifies for the overdue sweep at day 20. -/
def sweepLoan : Loan := ⟨1, 1, 1, 0, 10, none, .active, 0⟩

/-- Concrete database holding `sweepLoan` and a not-yet-due active loan. -/
def sweepState : DBState :=
  ⟨[], [⟨1, .digital, none, .loaned⟩, ⟨2, .digital, none, .loaned⟩], [⟨1, .active⟩],
   [sweepLoan, ⟨2, 2, 1, 0, 50, none, .active, 0⟩]⟩

/-- Concrete database where student 1 already holds five open loans (four
active, one overdue) and book 6 is still available. -/
def fiveLoansState : DBState :=
  ⟨[],
   [⟨1, .digital, none, .loaned⟩, ⟨2, .digital, none, .loaned⟩, ⟨3, .digital, none, .loaned⟩,
    ⟨4, .digital, none, .loaned⟩, ⟨5, .digital, none, .loaned⟩, ⟨6, .digital, none, .available⟩],
   [⟨1, .active⟩],
   [⟨1, 1, 1, 0, 7, none, .active, 0⟩, ⟨2, 2, 1, 0, 7, none, .active, 0⟩,
    ⟨3, 3, 1, 0, 7, none, .overdue, 0⟩, ⟨4, 4, 1, 0, 7, none, .active, 0⟩,
    ⟨5, 5, 1, 0, 7, none, .active, 0⟩]⟩

/-- Concrete database with an available physical book on a shelf with spare
capacity and one active student, ready for a loan. -/
def loanReadyState : DBState :=
  ⟨[⟨1, 5, 1⟩], [⟨1, .physical, some 1, .available⟩], [⟨1, .active⟩], []⟩

/-- The database produced by lending book 1 of `loanReadyState` to student 1
on day 90 with the defaulted due date. -/
def loanReadyStateAfter : DBState :=
  ⟨[⟨1, 5, 1⟩], [⟨1, .physical, some 1, .loaned⟩], [⟨1, .active⟩],
   [⟨1, 1, 1, 90, 104, none, .active, 0⟩]⟩

/-- Concrete database with a single active loan taken out on day 10. -/
def activeLoanState : DBState :=
  ⟨[], [⟨1, .digital, none, .loaned⟩], [⟨1, .active⟩],
   [⟨1, 1, 1, 10, 20, none, .active, 0⟩]⟩

/-- Concrete database with a single overdue loan on book 1. -/
def overdueLoanState : DBState :=
  ⟨[], [⟨1, .digital, none, .loaned⟩], [⟨1, .active⟩],
   [⟨1, 1, 1, 10, 20, none, .overdue, 0⟩]⟩

/-- Concrete database for the shelf round trip: shelf 1 (A) is empty, shelf
2 (B) holds the physical book 1, and both shelves have free capacity. -/
def roundTripState : DBState :=
  ⟨[⟨1, 5, 0⟩, ⟨2, 5, 1⟩], [⟨1, .physical, some 2, .available⟩], [], []⟩

/-- Concrete database for the shelf round trip with the book on a third
shelf: shelves 1 (A) and 2 (B) are empty, shelf 3 holds the physical book. -/
def threeShelfState : DBState :=
  ⟨[⟨1, 5, 0⟩, ⟨2, 5, 0⟩, ⟨3, 5, 1⟩], [⟨1, .physical, some 3, .available⟩], [], []⟩

/-- Concrete database with an overdue loan on a physical book whose shelf is
exactly full (capacity 1, count 1): releasing the book trips the placement
revalidation. -/
def fullShelfLoanState : DBState :=
  ⟨[⟨1, 1, 1⟩], [⟨1, .physical, some 1, .loaned⟩], [⟨1, .active⟩],
    [⟨1, 1, 1, 0, 10, none, .overdue, 0⟩]⟩

/-- Concrete database whose single shelf of capacity 1 is referenced by two
physical books: the recomputed count 2 violates
`chk_current_book_count_valid`, so the repair UPDATE aborts. -/
def overfullShelfState : DBState :=
  ⟨[⟨1, 1, 1⟩],
    [⟨1, .physical, some 1, .available⟩, ⟨2, .physical, some 1, .available⟩], [], []⟩

/-! ### General list lemmas -/

theorem find?_map_key {α : Type} (p : α → Bool) (f : α → α) (l : List α)
    (hf : ∀ x, p (f x) = p x) :
    (l.map f).find? p = (l.find? p).map f := by
  induction l with
  | nil => rfl
  | cons a t ih =>
    rw [List.map_cons]
    by_cases hpa : p a = true
    · rw [List.find?_cons_of_pos _ (by rw [hf]; exact hpa), List.find?_cons_of_pos _ hpa]
      rfl
    · rw [List.find?_cons_of_neg _ (by rw [hf]; exact hpa), List.find?_cons_of_neg _ hpa, ih]

theorem countP_key_le_one (l : List Loan) (lid : Nat)
    (h : (l.map Loan.loan_id).Nodup) :
    List.countP (fun x => x.loan_id == lid) l ≤ 1 := by
  have h1 : List.countP (fun x => x.loan_id == lid) l
      = List.count lid (l.map Loan.loan_id) := by
    rw [List.count_eq_countP, List.countP_map]
    rfl
  rw [h1]
  exact List.nodup_iff_count_le_one.mp h lid

theorem countP_map_le_of {α : Type} (p q : α → Bool) (f : α → α) (l : List α)
    (h : ∀ x ∈ l, p (f x) = true → q x = true) :
    List.countP p (l.map f) ≤ List.countP q l := by
  rw [List.countP_map]
  exact List.countP_mono_left (fun x hx hpf => h x hx hpf)

theorem countP_map_congr {α : Type} (p : α → Bool) (f : α → α) (l : List α)
    (h : ∀ x ∈ l, p (f x) = p x) :
    List.countP p (l.map f) = List.countP p l := by
  rw [List.countP_map]
  exact List.countP_congr (fun x hx => by
    show p (f x) = true ↔ p x = true
    rw [h x hx])

/-- Rewriting an open-loan list length into a countP. -/
theorem openLoansForBook_length (loans : List Loan) (b : Nat) :
    (openLoansForBook loans b).length
      = List.countP (fun l => l.book_id == b && isOpen l.loan_status) loans := by
  rw [openLoansForBook, ← List.countP_eq_length_filter]

/-! ### Shelf-ledger lemmas -/

theorem usbc_error_not_found {s : DBState} {sid : Nat} {d : Int}
    (h : findShelf s sid = none) :
    update_shelf_book_count s sid d = .error .shelfNotFound := by
  unfold update_shelf_book_count
  rw [h]

theorem usbc_frame {s : DBState} {sid : Nat} {d : Int} {s' : DBState}
    (h : update_shelf_book_count s sid d = .ok s') :
    s'.books = s.books ∧ s'.students = s.students ∧ s'.loans = s.loans := by
  unfold update_shelf_book_count at h
  split at h
  · exact absurd h (by simp)
  · split at h
    · exact absurd h (by simp)
    · split at h
      · exact absurd h (by simp)
      · cases h
        exact ⟨rfl, rfl, rfl⟩

theorem shelf_id_of_findShelf {s : DBState} {sid : Nat} {sh : Shelf}
    (h : findShelf s sid = some sh) : sh.shelf_id = sid := by
  have := List.find?_some h
  simpa using this

theorem usbc_ok_spec {s : DBState} {sid : Nat} {d : Int} {s' : DBState}
    (h : update_shelf_book_count s sid d = .ok s') :
    ∃ sh, findShelf s sid = some sh ∧ 0 ≤ sh.current_book_count + d ∧
      sh.current_book_count + d ≤ sh.total_capacity ∧
      findShelf s' sid = some { sh with current_book_count := sh.current_book_count + d } ∧
      (∀ x, x ≠ sid → findShelf s' x = findShelf s x) := by
  unfold update_shelf_book_count at h
  split at h
  · exact absurd h (by simp)
  · rename_i sh hfind
    split at h
    · exact absurd h (by simp)
    · split at h
      · exact absurd h (by simp)
      · rename_i hneg hcap
        cases h
        refine ⟨sh, hfind, by omega, by omega, ?_, ?_⟩
        · show (s.shelves.map _).find? _ = _
          rw [find?_map_key _ _ _ (fun t => by by_cases ht : t.shelf_id == sid <;> simp [ht])]
          rw [show s.shelves.find? (fun t => t.shelf_id == sid) = some sh from hfind]
          have hid : sh.shelf_id = sid := shelf_id_of_findShelf hfind
          simp [hid]
        · intro x hx
          show (s.shelves.map _).find? _ = findShelf s x
          rw [find?_map_key _ _ _ (fun t => by by_cases ht : t.shelf_id == sid <;> simp [ht])]
          unfold findShelf
          cases hfx : s.shelves.find? (fun t => t.shelf_id == x) with
          | none => rfl
          | some t =>
            have htx : t.shelf_id = x := by simpa using List.find?_some hfx
            have hne : ¬ (t.shelf_id == sid) = true := by simp [htx, hx]
            simp only [Option.map_some']
            rw [if_neg hne]

theorem usbc_ok_of_range {s : DBState} {sid : Nat} {d : Int} {sh : Shelf}
    (hfind : findShelf s sid = some sh) (h0 : 0 ≤ sh.current_book_count + d)
    (hc : sh.current_book_count + d ≤ sh.total_capacity) :
    ∃ s', update_shelf_book_count s sid d = .ok s' := by
  unfold update_shelf_book_count
  rw [hfind]
  have h1 : ¬ sh.current_book_count + d < 0 := by omega
  have h2 : ¬ sh.total_capacity < sh.current_book_count + d := by omega
  simp only [h1, h2, if_false]
  exact ⟨_, rfl⟩

/-! ### Claim C4: the Shelf Ledger TryAdjust contract -/

/-- C4: `update_shelf_book_count` (TryAdjust) sets the shelf's
`current_book_count` to `currentCount + delta` exactly when the shelf exists
and the new value lies within `[0, totalCapacity]`; a missing shelf, a
negative result and an over-capacity result return the matching errors with
nothing updated, and a successful call leaves the other tables, every other
shelf row, and every other field of the targeted row unchanged. -/
theorem try_adjust_spec (s : DBState) (sid : Nat) (d : Int) :
    (findShelf s sid = none → update_shelf_book_count s sid d = .error .shelfNotFound) ∧
    ∀ sh, findShelf s sid = some sh →
      (sh.current_book_count + d < 0 →
          update_shelf_book_count s sid d = .error .negativeCount) ∧
      (0 ≤ sh.current_book_count + d → sh.total_capacity < sh.current_book_count + d →
          update_shelf_book_count s sid d = .error .capacityExceeded) ∧
      (0 ≤ sh.current_book_count + d → sh.current_book_count + d ≤ sh.total_capacity →
        ∃ s', update_shelf_book_count s sid d = .ok s' ∧
          s'.books = s.books ∧ s'.students = s.students ∧ s'.loans = s.loans ∧
          shelfRecordedCount s' sid = some (sh.current_book_count + d) ∧
          (∀ x, x ≠ sid → findShelf s' x = findShelf s x) ∧
          ∀ (i : Nat) (t t' : Shelf), s.shelves[i]? = some t → s'.shelves[i]? = some t' →
            (t.shelf_id ≠ sid → t' = t) ∧
            (t.shelf_id = sid →
              t' = { t with current_book_count := sh.current_book_count + d })) := by
  constructor
  · intro h
    exact usbc_error_not_found h
  · intro sh hfind
    refine ⟨?_, ?_, ?_⟩
    · intro hneg
      unfold update_shelf_book_count
      simp only [hfind]
      rw [if_pos hneg]
    · intro h0 hover
      unfold update_shelf_book_count
      simp only [hfind]
      rw [if_neg (by omega), if_pos hover]
    · intro h0 hcap
      obtain ⟨s', hs'⟩ := usbc_ok_of_range hfind h0 hcap
      obtain ⟨hb, hst, hl⟩ := usbc_frame hs'
      obtain ⟨sh2, hfind2, _, _, htgt, hoth⟩ := usbc_ok_spec hs'
      have hsh2 : sh2 = sh := by rw [hfind] at hfind2; exact (Option.some_injective _ hfind2).symm
      rw [hsh2] at htgt
      refine ⟨s', hs', hb, hst, hl, ?_, hoth, ?_⟩
      · rw [shelfRecordedCount, htgt]
        rfl
      · have hshape : s'.shelves = s.shelves.map (fun t =>
            if t.shelf_id == sid then { t with current_book_count := sh.current_book_count + d }
            else t) := by
          unfold update_shelf_book_count at hs'
          simp only [hfind] at hs'
          rw [if_neg (by omega), if_neg (by omega)] at hs'
          cases hs'
          rfl
        intro i t t' hti hti'
        rw [hshape, List.getElem?_map, hti] at hti'
        simp only [Option.map_some'] at hti'
        constructor
        · intro hne
          rw [if_neg (by simpa using hne)] at hti'
          exact (Option.some_injective _ hti').symm
        · intro heq
          rw [if_pos (by simpa using heq)] at hti'
          exact (Option.some_injective _ hti').symm

/-- Closed instantiation of the TryAdjust contract on `ledgerWitnessState`. -/
theorem try_adjust_spec_witness :
    ∃ s', update_shelf_book_count ledgerWitnessState 1 1 = .ok s' ∧
      s'.books = ledgerWitnessState.books ∧ s'.students = ledgerWitnessState.students ∧
      s'.loans = ledgerWitnessState.loans ∧
      shelfRecordedCount s' 1 = some ((2 : Int) + 1) ∧
      (∀ x, x ≠ 1 → findShelf s' x = findShelf ledgerWitnessState x) ∧
      ∀ (i : Nat) (t t' : Shelf), ledgerWitnessState.shelves[i]? = some t → s'.shelves[i]? = some t' →
        (t.shelf_id ≠ 1 → t' = t) ∧
        (t.shelf_id = 1 → t' = { t with current_book_count := (2 : Int) + 1 }) :=
  ((try_adjust_spec ledgerWitnessState 1 1).2 ⟨1, 5, 2⟩ (by rfl)).2.2 (by decide) (by decide)

/-! ### Claim C9: the Reconciliation Auditor -/

/-- C9 counterexample: in `driftState` exactly one shelf (id 1, recorded 3,
actual 1) is drifted, yet `fix_capacity_counts` reports 2 shelves, the size
of the whole table, rather than the number of drifted shelves. -/
theorem repair_count_counterexample :
    validate_capacity_consistency driftState = [(1, 3, 1)] ∧
    (validate_capacity_consistency driftState).length = 1 ∧
    (fix_capacity_counts driftState).1 = 2 := by decide

/-- C9 amended: `validate_capacity_consistency` (FindDrift) returns exactly
the shelves whose recorded count differs from the recomputed physical-book
count, with both counts.  `fix_capacity_counts` (Repair): when every shelf's
recomputed count fits within its capacity, it overwrites every shelf's count
with the recomputed true value — so drifted shelves are corrected and
non-drifted shelves keep their value — and returns the number of shelf rows
rewritten, which is the total number of shelves, not the number of drifted
ones; when some shelf's recomputed count exceeds its capacity, the single
UPDATE violates `chk_current_book_count_valid` and aborts wholesale, so
Repair returns 0 and corrects nothing. -/
theorem find_drift_and_repair_spec (s : DBState) :
    (∀ e, e ∈ validate_capacity_consistency s ↔
       ∃ sh, sh ∈ s.shelves ∧ sh.current_book_count ≠ (actualBookCount s sh.shelf_id : Int) ∧
         e = (sh.shelf_id, sh.current_book_count, actualBookCount s sh.shelf_id)) ∧
    ((∀ sh ∈ s.shelves, (actualBookCount s sh.shelf_id : Int) ≤ sh.total_capacity) →
      (fix_capacity_counts s).1 = s.shelves.length ∧
      (fix_capacity_counts s).2.books = s.books ∧
      (fix_capacity_counts s).2.students = s.students ∧
      (fix_capacity_counts s).2.loans = s.loans ∧
      ∀ (i : Nat) (t t' : Shelf), s.shelves[i]? = some t →
        (fix_capacity_counts s).2.shelves[i]? = some t' →
        t' = { t with current_book_count := (actualBookCount s t.shelf_id : Int) }) ∧
    ((∃ sh ∈ s.shelves, sh.total_capacity < (actualBookCount s sh.shelf_id : Int)) →
      fix_capacity_counts s = (0, s)) := by
  refine ⟨?_, ?_, ?_⟩
  · intro e
    unfold validate_capacity_consistency
    simp only [List.mem_map, List.mem_filter]
    constructor
    · rintro ⟨sh, ⟨hmem, hne⟩, rfl⟩
      exact ⟨sh, hmem, by simpa using hne, rfl⟩
    · rintro ⟨sh, hmem, hne, rfl⟩
      exact ⟨sh, ⟨hmem, by simpa using hne⟩, rfl⟩
  · intro hle
    have hc : (s.shelves.all (fun sh =>
        decide ((actualBookCount s sh.shelf_id : Int) ≤ sh.total_capacity))) = true := by
      rw [List.all_eq_true]
      intro sh hmem
      exact decide_eq_true (hle sh hmem)
    have hfix : fix_capacity_counts s =
        (s.shelves.length, { s with shelves := s.shelves.map (fun sh =>
          { sh with current_book_count := (actualBookCount s sh.shelf_id : Int) }) }) := by
      unfold fix_capacity_counts
      rw [if_pos hc]
    refine ⟨by rw [hfix], by rw [hfix], by rw [hfix], by rw [hfix], ?_⟩
    intro i t t' hti hti'
    rw [hfix] at hti'
    simp only at hti'
    rw [List.getElem?_map, hti] at hti'
    simp only [Option.map_some'] at hti'
    exact (Option.some_injective _ hti').symm
  · rintro ⟨sh, hmem, hgt⟩
    have hc : ¬ ((s.shelves.all (fun sh =>
        decide ((actualBookCount s sh.shelf_id : Int) ≤ sh.total_capacity))) = true) := by
      rw [List.all_eq_true]
      intro hall
      exact absurd (of_decide_eq_true (hall sh hmem)) (not_le.mpr hgt)
    unfold fix_capacity_counts
    rw [if_neg hc]

/-- Closed instantiation of the auditor contract: in `auditWitnessState`
shelf 4 records 3 books while 2 physical books reference it (within its
capacity 10), so FindDrift reports it and Repair reports one rewritten row;
in `overfullShelfState` the recomputed count 2 exceeds the capacity 1, so
Repair aborts, returning 0 and changing nothing. -/
theorem find_drift_and_repair_spec_witness :
    ((4, (3 : Int), 2) ∈ validate_capacity_consistency auditWitnessState ↔
       ∃ sh, sh ∈ auditWitnessState.shelves ∧
         sh.current_book_count ≠ (actualBookCount auditWitnessState sh.shelf_id : Int) ∧
         ((4 : Nat), (3 : Int), (2 : Nat))
           = (sh.shelf_id, sh.current_book_count, actualBookCount auditWitnessState sh.shelf_id)) ∧
    (fix_capacity_counts auditWitnessState).1 = 1 ∧
    fix_capacity_counts overfullShelfState = (0, overfullShelfState) :=
  ⟨(find_drift_and_repair_spec auditWitnessState).1 (4, 3, 2),
    ((find_drift_and_repair_spec auditWitnessState).2.1 (by decide)).1,
    (find_drift_and_repair_spec overfullShelfState).2.2 ⟨⟨1, 1, 1⟩, by decide, by decide⟩⟩

/-! ### Claim C1: the shelf-count equality invariant -/

/-- C1: at `typeChangeState` the single operation that turns the digital book
7 into a physical book placed on shelf 1 succeeds, yet it runs both the
shelf-change block and the type-change block of trigger
`update_shelf_count_on_book_change`, leaving shelf 1 with
`current_book_count = 2` while exactly one physical book references it —
the operation does not preserve the equality between `currentCount` and the
number of physical books whose shelf reference points to the shelf. -/
theorem shelf_count_drift_on_type_change :
    (update_book_type_shelf typeChangeState 7 .physical (some 1)).1 = true ∧
    shelfRecordedCount (update_book_type_shelf typeChangeState 7 .physical (some 1)).2 1
      = some 2 ∧
    actualBookCount (update_book_type_shelf typeChangeState 7 .physical (some 1)).2 1 = 1 ∧
    shelfRecordedCount (update_book_type_shelf typeChangeState 7 .physical (some 1)).2 1
      ≠ some ((actualBookCount (update_book_type_shelf typeChangeState 7 .physical (some 1)).2 1 : Int)) := by
  decide

/-! ### Claim C6: the overdue sweep -/

theorem sweepQualifies_after (today : Int) (l : Loan) :
    sweepQualifies today
      (if sweepQualifies today l then { l with loan_status := .overdue } else l) = false := by
  by_cases h : sweepQualifies today l = true
  · rw [if_pos h]
    simp [sweepQualifies, isActive]
  · rw [if_neg h]
    exact Bool.not_eq_true _ ▸ Bool.of_not_eq_true h

theorem sweep_filter_after (today : Int) (loans : List Loan) :
    ((loans.map (fun l =>
        if sweepQualifies today l then { l with loan_status := .overdue } else l)).filter
      (sweepQualifies today)) = [] := by
  rw [List.filter_eq_nil_iff]
  intro a ha
  rw [List.mem_map] at ha
  obtain ⟨x, _, rfl⟩ := ha
  simp [sweepQualifies_after today x]

theorem sweep_map_idem (today : Int) (loans : List Loan) :
    ((loans.map (fun l =>
        if sweepQualifies today l then { l with loan_status := .overdue } else l)).map
      (fun l => if sweepQualifies today l then { l with loan_status := .overdue } else l))
    = loans.map (fun l =>
        if sweepQualifies today l then { l with loan_status := .overdue } else l) := by
  rw [List.map_map]
  apply List.map_congr_left
  intro a _
  simp only [Function.comp_apply]
  rw [if_neg (by simp [sweepQualifies_after today a])]

/-- C6: `update_overdue_loans` (SweepOverdue) touches no table but loans,
transitions every qualifying loan (status active, null actual return date,
estimated return date strictly before the as-of date) to overdue, keeps all
other loans unchanged, returns the number of qualifying loans, and is
idempotent: a second run with the same as-of date returns 0 and leaves the
state of the first run unchanged. -/
theorem sweep_overdue_spec (s : DBState) (today : Int) :
    ((update_overdue_loans s today).1 = (s.loans.filter (sweepQualifies today)).length) ∧
    ((update_overdue_loans s today).2.books = s.books) ∧
    ((update_overdue_loans s today).2.shelves = s.shelves) ∧
    ((update_overdue_loans s today).2.students = s.students) ∧
    (∀ l ∈ s.loans, sweepQualifies today l = true →
        { l with loan_status := .overdue } ∈ (update_overdue_loans s today).2.loans) ∧
    (∀ l ∈ s.loans, sweepQualifies today l = false →
        l ∈ (update_overdue_loans s today).2.loans) ∧
    update_overdue_loans (update_overdue_loans s today).2 today
      = (0, (update_overdue_loans s today).2) := by
  refine ⟨rfl, rfl, rfl, rfl, ?_, ?_, ?_⟩
  · intro l hl hq
    have := List.mem_map_of_mem
      (fun l => if sweepQualifies today l then { l with loan_status := .overdue } else l) hl
    simp only [hq, if_true] at this
    exact this
  · intro l hl hq
    have := List.mem_map_of_mem
      (fun l => if sweepQualifies today l then { l with loan_status := .overdue } else l) hl
    simp only [hq, Bool.false_eq_true, if_false] at this
    exact this
  · unfold update_overdue_loans
    simp only [Prod.mk.injEq]
    constructor
    · rw [sweep_filter_after]
      rfl
    · rw [sweep_map_idem]

/-- Closed instantiation of the sweep contract on `sweepState`. -/
theorem sweep_overdue_spec_witness :
    ({ sweepLoan with loan_status := .overdue } ∈ (update_overdue_loans sweepState 20).2.loans) ∧
    update_overdue_loans (update_overdue_loans sweepState 20).2 20
      = (0, (update_overdue_loans sweepState 20).2) :=
  ⟨(sweep_overdue_spec sweepState 20).2.2.2.2.1 sweepLoan (by decide) (by decide),
   (sweep_overdue_spec sweepState 20).2.2.2.2.2.2⟩

/-! ### Loan-creation lemmas -/

theorem create_loan_ok_spec {s : DBState} {today : Int} {bookId studentId : Nat}
    {loanDate? est? : Option Int} {s' : DBState} {lid : Nat}
    (h : create_loan s today bookId studentId loanDate? est? = .ok (s', lid)) :
    ∃ bk stu, findBook s bookId = some bk ∧ bk.status = .available ∧
      findStudent s studentId = some stu ∧ stu.status = .active ∧
      openLoanCountForStudent s.loans studentId < 5 ∧
      openLoansForBook s.loans bookId = [] ∧
      lid = freshLoanId s ∧
      checkLoanRow today ⟨lid, bookId, studentId, loanDate?.getD today,
        est?.getD (calculate_estimated_return_date (loanDate?.getD today) bk.book_type),
        none, .active, 0⟩ = true ∧
      s'.loans = ⟨lid, bookId, studentId, loanDate?.getD today,
        est?.getD (calculate_estimated_return_date (loanDate?.getD today) bk.book_type),
        none, .active, 0⟩ :: s.loans ∧
      s'.shelves = s.shelves ∧ s'.students = s.students ∧
      s'.books = s.books.map (fun b =>
        if b.book_id == bookId then { b with status := .loaned } else b) := by
  simp only [create_loan] at h
  split at h
  · exact absurd h (by simp)
  · rename_i bk hbk
    split at h
    · rename_i havail
      split at h
      · exact absurd h (by simp)
      · rename_i stu hstu
        split at h
        · rename_i hactive
          split at h
          · rename_i hcount
            split at h
            · rename_i hcheck
              split at h
              · rename_i hempty
                rw [Except.ok.injEq, Prod.mk.injEq] at h
                obtain ⟨hs', hlid⟩ := h
                refine ⟨bk, stu, hbk, havail, hstu, hactive, hcount,
                  List.isEmpty_iff.mp hempty, hlid.symm, ?_, ?_, ?_, ?_, ?_⟩
                · rw [← hlid]
                  exact hcheck
                · rw [← hs', ← hlid]
                · rw [← hs']
                · rw [← hs']
                · rw [← hs']
              · exact absurd h (by simp)
            · exact absurd h (by simp)
          · exact absurd h (by simp)
        · exact absurd h (by simp)
    · exact absurd h (by simp)

/-! ### Claim C3: loan-creation eligibility -/

/-- C3: the claimed eligibility contract is dead code.  The BEFORE trigger
`validate_loan_creation` opens with `SELECT status, book_type INTO
book_status, book_type`, in which `book_type` is ambiguous between the
declared PL/pgSQL variable and the `books` column, so as executed
(`create_loan_exec`) every INSERT INTO loans aborts with that ambiguity
error before any eligibility check: the fully eligible request of
`loanReadyState` fails instead of creating a loan, and the saturated student
of `fiveLoansState` is refused a sixth loan with the ambiguity error rather
than the loan-limit error.  Under the intended reading of the trigger text
(`create_loan`) the same two requests produce exactly the outcomes the claim
describes — a created loan and `.loanLimitReached` — so the claim matches
the intent and the code deviates from it. -/
theorem loan_creation_aborts_before_eligibility :
    create_loan_exec loanReadyState 100 1 1 (some 90) none = .error .ambiguousColumn ∧
    create_loan_exec fiveLoansState 10 6 1 none none = .error .ambiguousColumn ∧
    create_loan loanReadyState 100 1 1 (some 90) none = .ok (loanReadyStateAfter, 1) ∧
    create_loan fiveLoansState 10 6 1 none none = .error .loanLimitReached :=
  ⟨rfl, rfl, rfl, rfl⟩

/-! ### Claim C7: due-date defaults and bounds -/

/-- C7: the claimed due-date defaulting is dead code.  A creation without an
explicit due date aborts on the trigger's ambiguous `book_type` SELECT
(`create_loan_exec`) before `calculate_estimated_return_date` is ever
reached, so no loan row with a defaulted estimated return date is produced;
the SQL function itself returns loanDate + 14 for a physical book and
loanDate + 7 for a digital one as the claim says, but in the only reading
under which the trigger proceeds (the `book_type` variable, never assigned,
hence NULL) it would be called with NULL and yield the 14-day default even
for a digital book. -/
theorem due_date_defaulting_dead_code :
    create_loan_exec loanReadyState 90 1 1 none none = .error .ambiguousColumn ∧
    calculate_estimated_return_date 90 .physical = 104 ∧
    calculate_estimated_return_date 90 .digital = 97 ∧
    calculate_estimated_return_date_nullable 90 none = 104 ∧
    calculate_estimated_return_date_nullable 90 (some .digital) = 97 :=
  ⟨rfl, rfl, rfl, rfl, rfl⟩

/-! ### Key-filter lemmas for rows found by primary key -/

theorem filter_eq_singleton_of_key {α : Type} (k : α → Nat) {l : List α} {key : Nat} {L : α}
    (hnd : (l.map k).Nodup)
    (hfind : l.find? (fun t => k t == key) = some L)
    (q : α → Bool) (hkey : ∀ x, q x = true → (k x == key) = true)
    (hqL : q L = true) :
    l.filter q = [L] := by
  induction l with
  | nil => exact absurd hfind (by simp)
  | cons a t ih =>
    rw [List.map_cons, List.nodup_cons] at hnd
    by_cases ha : (k a == key) = true
    · rw [@List.find?_cons_of_pos _ (fun t => k t == key) a t ha] at hfind
      have hLa : L = a := by injection hfind with h; exact h.symm
      subst hLa
      rw [List.filter_cons, if_pos hqL]
      have hnil : t.filter q = [] := by
        rw [List.filter_eq_nil_iff]
        intro x hx hqx
        have hxk : k x = key := by simpa using hkey x hqx
        have hak : k L = key := by simpa using ha
        exact hnd.1 (by rw [hak, ← hxk]; exact List.mem_map_of_mem k hx)
      rw [hnil]
    · rw [@List.find?_cons_of_neg _ (fun t => k t == key) a t ha] at hfind
      have hqa : ¬ q a = true := fun hq => ha (hkey a hq)
      rw [List.filter_cons, if_neg hqa]
      exact ih hnd.2 hfind

theorem filter_eq_nil_of_key {α : Type} (k : α → Nat) {l : List α} {key : Nat} {L : α}
    (hnd : (l.map k).Nodup)
    (hfind : l.find? (fun t => k t == key) = some L)
    (q : α → Bool) (hkey : ∀ x, q x = true → (k x == key) = true)
    (hqL : q L = false) :
    l.filter q = [] := by
  induction l with
  | nil => exact absurd hfind (by simp)
  | cons a t ih =>
    rw [List.map_cons, List.nodup_cons] at hnd
    by_cases ha : (k a == key) = true
    · rw [@List.find?_cons_of_pos _ (fun t => k t == key) a t ha] at hfind
      have hLa : L = a := by injection hfind with h; exact h.symm
      subst hLa
      rw [List.filter_cons, if_neg (by rw [hqL]; exact Bool.false_ne_true)]
      rw [List.filter_eq_nil_iff]
      intro x hx hqx
      have hxk : k x = key := by simpa using hkey x hqx
      have hak : k L = key := by simpa using ha
      exact hnd.1 (by rw [hak, ← hxk]; exact List.mem_map_of_mem k hx)
    · rw [@List.find?_cons_of_neg _ (fun t => k t == key) a t ha] at hfind
      have hqa : ¬ q a = true := fun hq => ha (hkey a hq)
      rw [List.filter_cons, if_neg hqa]
      exact ih hnd.2 hfind

theorem filter_eq_nil_of_no_key {α : Type} (k : α → Nat) {l : List α} {key : Nat}
    (hfind : l.find? (fun t => k t == key) = none)
    (q : α → Bool) (hkey : ∀ x, q x = true → (k x == key) = true) :
    l.filter q = [] := by
  rw [List.find?_eq_none] at hfind
  rw [List.filter_eq_nil_iff]
  intro x hx hqx
  exact hfind x hx (hkey x hqx)

/-! ### Claim C5: returning a book -/

/-- C5 counterexample: loan 1 of `activeLoanState` has status active, yet
`return_book` with return date 5, earlier than the loan date 10, fails (the
updated row would violate `chk_actual_return_after_loan`) and leaves the
state unchanged — so success is not equivalent to the status being active or
overdue. -/
theorem return_early_date_counterexample :
    (findLoan activeLoanState 1).map Loan.loan_status = some .active ∧
    return_book activeLoanState 30 1 (some 5) = (false, activeLoanState) := by decide

theorem loan_id_of_findLoan {s : DBState} {lid : Nat} {L : Loan}
    (h : findLoan s lid = some L) : (L.loan_id == lid) = true := by
  have h2 := List.find?_some h
  exact h2

theorem checkLoanRow_return_eq (today rd : Int) (L : Loan)
    (h : checkLoanRow today L = true) :
    checkLoanRow today { L with loan_status := .returned, actual_return_date := some rd }
      = decide (L.loan_date ≤ rd) := by
  have h' := h
  simp only [checkLoanRow, Bool.and_eq_true, decide_eq_true_eq] at h'
  obtain ⟨⟨⟨⟨⟨hA, hB⟩, _⟩, _⟩, _⟩, hF⟩ := h'
  simp only [checkLoanRow]
  rw [decide_eq_true hA, decide_eq_true hB, decide_eq_true hF]
  simp

/-- C5 amended: `return_book` succeeds exactly when the loan exists, its
status is active or overdue, the effective return date (the explicit one,
else today) is at least the loan date, and the book release passes the
shelf-placement revalidation that the triggered `UPDATE books` re-runs (the
referenced book is digital, shelfless, or on an existing shelf whose
recorded count is below its capacity); on success it stamps the actual
return date, sets the status to returned and makes the referenced book
available, leaving other loans, other books, shelves and students unchanged;
in every failure case — missing loan, non-open status, a return date before
the loan date, or a failing revalidation (an open loan on a physical book
whose shelf is full) — it returns false and changes nothing.  (The stored
row is assumed to satisfy the table CHECK constraints, as every row of the
real database does.) -/
theorem return_book_spec (s : DBState) (today : Int) (lid : Nat) (rd? : Option Int)
    (hnodup : (s.loans.map Loan.loan_id).Nodup) :
    (∀ L, findLoan s lid = some L → checkLoanRow today L = true →
      ((return_book s today lid rd?).1 = true ↔
        isOpen L.loan_status = true ∧ L.loan_date ≤ rd?.getD today ∧
          booksStatusUpdateOk s L.book_id .available = true)) ∧
    (findLoan s lid = none → return_book s today lid rd? = (false, s)) ∧
    (∀ L, findLoan s lid = some L → isOpen L.loan_status = false →
      return_book s today lid rd? = (false, s)) ∧
    ((return_book s today lid rd?).1 = false → (return_book s today lid rd?).2 = s) ∧
    (∀ L, findLoan s lid = some L → checkLoanRow today L = true →
      isOpen L.loan_status = true → L.loan_date ≤ rd?.getD today →
      booksStatusUpdateOk s L.book_id .available = true →
      (return_book s today lid rd?).1 = true ∧
      findLoan (return_book s today lid rd?).2 lid
        = some { L with loan_status := .returned,
                        actual_return_date := some (rd?.getD today) } ∧
      (∀ M ∈ s.loans, M.loan_id ≠ lid → M ∈ (return_book s today lid rd?).2.loans) ∧
      (∀ b ∈ s.books, b.book_id = L.book_id →
        { b with status := .available } ∈ (return_book s today lid rd?).2.books) ∧
      (∀ b ∈ s.books, b.book_id ≠ L.book_id → b ∈ (return_book s today lid rd?).2.books) ∧
      (return_book s today lid rd?).2.shelves = s.shelves ∧
      (return_book s today lid rd?).2.students = s.students) := by
  have hkey : ∀ x : Loan, (x.loan_id == lid && isOpen x.loan_status) = true →
      (x.loan_id == lid) = true := by
    intro x hx
    exact (Bool.and_eq_true _ _ |>.mp hx).1
  refine ⟨?_, ?_, ?_, ?_, ?_⟩
  · intro L hfind hchk
    by_cases hopen : isOpen L.loan_status = true
    · have hmatch : s.loans.filter (fun l => l.loan_id == lid && isOpen l.loan_status) = [L] :=
        filter_eq_singleton_of_key Loan.loan_id hnodup hfind _ hkey
          (by rw [Bool.and_eq_true]; exact ⟨loan_id_of_findLoan hfind, hopen⟩)
      by_cases hd : L.loan_date ≤ rd?.getD today
      · by_cases hbo : booksStatusUpdateOk s L.book_id .available = true
        · have hres : (return_book s today lid rd?).1 = true := by
            simp only [return_book, hmatch, List.all_cons, List.all_nil,
              Bool.and_true, checkLoanRow_return_eq today _ L hchk]
            simp [hd, hbo]
          simp [hres, hopen, hd, hbo]
        · have hres : (return_book s today lid rd?).1 = false := by
            simp only [return_book, hmatch, List.all_cons, List.all_nil,
              Bool.and_true, checkLoanRow_return_eq today _ L hchk]
            simp [hd, hbo]
          simp [hres, hopen, hd, hbo]
      · have hres : (return_book s today lid rd?).1 = false := by
          simp only [return_book, hmatch, List.all_cons, List.all_nil,
            Bool.and_true, checkLoanRow_return_eq today _ L hchk]
          simp [hd]
        simp [hres, hopen, hd]
    · have hmatch : s.loans.filter (fun l => l.loan_id == lid && isOpen l.loan_status) = [] :=
        filter_eq_nil_of_key Loan.loan_id hnodup hfind _ hkey
          (by rw [Bool.and_eq_false_iff]; right; exact Bool.not_eq_true _ ▸ hopen)
      simp only [return_book, hmatch]
      simp [hopen]
  · intro hfind
    have hmatch : s.loans.filter (fun l => l.loan_id == lid && isOpen l.loan_status) = [] :=
      filter_eq_nil_of_no_key Loan.loan_id hfind _ hkey
    simp only [return_book, hmatch]
    simp
  · intro L hfind hopen
    have hmatch : s.loans.filter (fun l => l.loan_id == lid && isOpen l.loan_status) = [] :=
      filter_eq_nil_of_key Loan.loan_id hnodup hfind _ hkey
        (by rw [Bool.and_eq_false_iff]; right; exact hopen)
    simp only [return_book, hmatch]
    simp
  · simp only [return_book]
    split
    · intro _; rfl
    · split
      · split
        · intro hc; exact absurd hc (by simp)
        · intro _; rfl
      · intro _; rfl
  · intro L hfind hchk hopen hdate hbo
    have hmatch : s.loans.filter (fun l => l.loan_id == lid && isOpen l.loan_status) = [L] :=
      filter_eq_singleton_of_key Loan.loan_id hnodup hfind _ hkey
        (by rw [Bool.and_eq_true]; exact ⟨loan_id_of_findLoan hfind, hopen⟩)
    have hres : return_book s today lid rd?
        = (true, { s with
            loans := s.loans.map (fun l =>
              if l.loan_id == lid && isOpen l.loan_status then
                { l with loan_status := .returned,
                         actual_return_date := some (rd?.getD today) }
              else l),
            books := s.books.map (fun b =>
              if L.book_id == b.book_id then { b with status := .available } else b) }) := by
      simp only [return_book, hmatch, List.all_cons, List.all_nil,
        Bool.and_true, checkLoanRow_return_eq today _ L hchk]
      simp [hdate, hbo]
    rw [hres]
    refine ⟨rfl, ?_, ?_, ?_, ?_, rfl, rfl⟩
    · have hgoal : List.find? (fun t => t.loan_id == lid)
          (s.loans.map (fun l =>
            if l.loan_id == lid && isOpen l.loan_status then
              { l with loan_status := .returned,
                       actual_return_date := some (rd?.getD today) }
            else l))
          = some { L with loan_status := .returned,
                          actual_return_date := some (rd?.getD today) } := by
        rw [find?_map_key _ _ _ (fun x => by
          by_cases hx : (x.loan_id == lid && isOpen x.loan_status) = true <;> simp [hx])]
        rw [show List.find? (fun t => t.loan_id == lid) s.loans = some L from hfind]
        simp only [Option.map_some']
        rw [if_pos (by rw [Bool.and_eq_true]; exact ⟨loan_id_of_findLoan hfind, hopen⟩)]
      exact hgoal
    · intro M hM hMne
      exact List.mem_map.mpr ⟨M, hM, by simp [hMne]⟩
    · intro b hb hbid
      exact List.mem_map.mpr ⟨b, hb, by simp [hbid]⟩
    · intro b hb hbid
      exact List.mem_map.mpr ⟨b, hb, by simp [Ne.symm hbid]⟩

/-- Closed instantiation of the return contract on `activeLoanState` with a
valid return date: the return succeeds, the loan is stamped returned on day
12, and book 1 becomes available. -/
theorem return_book_spec_witness :
    (return_book activeLoanState 30 1 (some 12)).1 = true ∧
    findLoan (return_book activeLoanState 30 1 (some 12)).2 1
      = some ⟨1, 1, 1, 10, 20, some 12, .returned, 0⟩ ∧
    (∀ M ∈ activeLoanState.loans, M.loan_id ≠ 1 →
      M ∈ (return_book activeLoanState 30 1 (some 12)).2.loans) ∧
    (∀ b ∈ activeLoanState.books, b.book_id = 1 →
      { b with status := .available } ∈ (return_book activeLoanState 30 1 (some 12)).2.books) ∧
    (∀ b ∈ activeLoanState.books, b.book_id ≠ 1 →
      b ∈ (return_book activeLoanState 30 1 (some 12)).2.books) ∧
    (return_book activeLoanState 30 1 (some 12)).2.shelves = activeLoanState.shelves ∧
    (return_book activeLoanState 30 1 (some 12)).2.students = activeLoanState.students :=
  (return_book_spec activeLoanState 30 1 (some 12) (by decide)).2.2.2.2
    ⟨1, 1, 1, 10, 20, none, .active, 0⟩ (by decide) (by decide) (by decide) (by decide)
    (by decide)

/-! ### Claim C10: the loan DELETE trigger -/

/-- C10 counterexample: loan 1 of `fullShelfLoanState` is overdue (open) on
physical book 1, whose shelf 1 is exactly full; the claim says deleting the
loan sets the book available, but the trigger's release UPDATE re-enters the
placement validation, which raises at full capacity — so the deletion fails
wholesale: the loan row survives and the book stays loaned. -/
theorem delete_open_loan_full_shelf_counterexample :
    (findLoan fullShelfLoanState 1).map Loan.loan_status = some .overdue ∧
    delete_loan fullShelfLoanState 1 = (false, fullShelfLoanState) ∧
    (findBook fullShelfLoanState 1).map Book.status = some .loaned := by decide

/-- C10 amended: deleting a loan whose status is active or overdue makes the
referenced book available while every other book row survives unchanged,
provided the release passes the shelf-placement revalidation re-run by the
triggered `UPDATE books` (the book is digital, shelfless, or on an existing
shelf below capacity); when that revalidation fails the whole deletion
aborts with nothing changed.  Deleting a returned or lost loan leaves the
books table exactly as it was.  In either completed case the deleted loan's
row disappears and all other loans survive. -/
theorem delete_loan_book_status (s : DBState) (lid : Nat)
    (hnodup : (s.loans.map Loan.loan_id).Nodup) :
    ∀ L, findLoan s lid = some L →
      (isOpen L.loan_status = true → booksStatusUpdateOk s L.book_id .available = true →
        (delete_loan s lid).1 = true ∧
        (∀ b ∈ s.books, b.book_id = L.book_id →
          { b with status := .available } ∈ (delete_loan s lid).2.books) ∧
        (∀ b ∈ s.books, b.book_id ≠ L.book_id → b ∈ (delete_loan s lid).2.books) ∧
        (∀ M ∈ (delete_loan s lid).2.loans, M.loan_id ≠ lid) ∧
        (∀ M ∈ s.loans, M.loan_id ≠ lid → M ∈ (delete_loan s lid).2.loans)) ∧
      (isOpen L.loan_status = false →
        (delete_loan s lid).1 = true ∧
        (delete_loan s lid).2.books = s.books ∧
        (∀ M ∈ (delete_loan s lid).2.loans, M.loan_id ≠ lid) ∧
        (∀ M ∈ s.loans, M.loan_id ≠ lid → M ∈ (delete_loan s lid).2.loans)) ∧
      (isOpen L.loan_status = true → booksStatusUpdateOk s L.book_id .available = false →
        delete_loan s lid = (false, s)) := by
  intro L hfind
  have hrem : s.loans.filter (fun l => l.loan_id == lid) = [L] :=
    filter_eq_singleton_of_key Loan.loan_id hnodup hfind _ (fun x hx => hx)
      (loan_id_of_findLoan hfind)
  refine ⟨?_, ?_, ?_⟩
  · intro hopen hbo
    have hres : delete_loan s lid
        = (true, { s with
            loans := s.loans.filter (fun l => !(l.loan_id == lid)),
            books := s.books.map (fun b =>
              if isOpen L.loan_status && L.book_id == b.book_id then
                { b with status := .available }
              else b) }) := by
      simp only [delete_loan, hrem, List.all_cons, List.all_nil, Bool.and_true,
        List.any_cons, List.any_nil, Bool.or_false]
      simp [hopen, hbo]
    rw [hres]
    refine ⟨rfl, ?_, ?_, ?_, ?_⟩
    · intro b hb hbid
      exact List.mem_map.mpr ⟨b, hb, by simp [hopen, hbid]⟩
    · intro b hb hbid
      exact List.mem_map.mpr ⟨b, hb, by simp [Ne.symm hbid]⟩
    · intro M hM
      have := (List.mem_filter.mp hM).2
      simpa using this
    · intro M hM hMne
      exact List.mem_filter.mpr ⟨hM, by simp [hMne]⟩
  · intro hopen
    have hres : delete_loan s lid
        = (true, { s with
            loans := s.loans.filter (fun l => !(l.loan_id == lid)),
            books := s.books.map (fun b =>
              if isOpen L.loan_status && L.book_id == b.book_id then
                { b with status := .available }
              else b) }) := by
      simp only [delete_loan, hrem, List.all_cons, List.all_nil, Bool.and_true,
        List.any_cons, List.any_nil, Bool.or_false]
      simp [hopen]
    rw [hres]
    refine ⟨rfl, ?_, ?_, ?_⟩
    · show s.books.map _ = s.books
      have hid : ∀ b ∈ s.books,
          (if isOpen L.loan_status && L.book_id == b.book_id then
            { b with status := BookStatus.available } else b) = b := by
        intro b _
        rw [if_neg (by simp [hopen])]
      rw [List.map_congr_left hid, List.map_id']
    · intro M hM
      have := (List.mem_filter.mp hM).2
      simpa using this
    · intro M hM hMne
      exact List.mem_filter.mpr ⟨hM, by simp [hMne]⟩
  · intro hopen hbo
    simp only [delete_loan, hrem, List.all_cons, List.all_nil, Bool.and_true]
    simp [hopen, hbo]

/-- Closed instantiation of the delete trigger contract on
`overdueLoanState`: the book is digital, so the revalidation passes and
deleting the overdue loan releases book 1. -/
theorem delete_loan_book_status_witness :
    ((⟨1, .digital, none, .available⟩ : Book) ∈ (delete_loan overdueLoanState 1).2.books) ∧
    (delete_loan overdueLoanState 1).1 = true :=
  ⟨((delete_loan_book_status overdueLoanState 1 (by decide)
      ⟨1, 1, 1, 10, 20, none, .overdue, 0⟩ (by decide)).1 (by decide) (by decide)).2.1
      ⟨1, .digital, none, .loaned⟩ (by decide) (by decide),
   ((delete_loan_book_status overdueLoanState 1 (by decide)
      ⟨1, 1, 1, 10, 20, none, .overdue, 0⟩ (by decide)).1 (by decide) (by decide)).1⟩

/-! ### Claim C8: shelf reassignment -/

theorem book_id_of_findBook {s : DBState} {bid : Nat} {bk : Book}
    (h : findBook s bid = some bk) : (bk.book_id == bid) = true := by
  have h2 := List.find?_some h
  exact h2

/-- C8 counterexample: in `roundTripState` the physical book 1 sits on shelf
2 (playing B); shelves 1 (A) and 2 (B) both have free capacity.  Assigning
the book to shelf 1 and then to shelf 2 succeeds, yet shelf 2 ends with
count 1, its value before the first assignment, not one greater. -/
theorem assign_round_trip_counterexample :
    (move_book_to_shelf roundTripState 1 1).1 = true ∧
    (move_book_to_shelf (move_book_to_shelf roundTripState 1 1).2 1 2).1 = true ∧
    shelfRecordedCount roundTripState 2 = some 1 ∧
    shelfRecordedCount
      (move_book_to_shelf (move_book_to_shelf roundTripState 1 1).2 1 2).2 2 = some 1 ∧
    shelfRecordedCount
      (move_book_to_shelf (move_book_to_shelf roundTripState 1 1).2 1 2).2 2
      ≠ some ((1 : Int) + 1) := by decide

/-- Reduction of the UPDATE branch of the shelf-count trigger when only the
shelf reference changes between two physical-book rows. -/
theorem shelfCountTriggerUpdate_shelf_change {old new : Book} {st : DBState}
    (hsh : old.shelf_id ≠ new.shelf_id) (hphys : new.book_type = .physical)
    (htype : old.book_type = new.book_type) {so sn : Nat}
    (hold : old.shelf_id = some so) (hnew : new.shelf_id = some sn)
    {t1 t2 : DBState}
    (h1 : update_shelf_book_count st so (-1) = .ok t1)
    (h2 : update_shelf_book_count t1 sn 1 = .ok t2) :
    shelfCountTriggerUpdate old new st = .ok t2 := by
  unfold shelfCountTriggerUpdate
  rw [if_pos ⟨hsh, hphys⟩]
  simp only [adjustOptShelf, hold, hnew, h1, h2]
  rw [if_neg (by rw [htype]; simp)]

/-- Decomposition of one successful `move_book_to_shelf` call: a placed
physical book moving to a different shelf with free capacity decrements the
old shelf, increments the new one, rewrites the book row, and leaves every
other shelf, the loans and the students unchanged. -/
theorem move_book_spec {s : DBState} {bid a s0 : Nat} {bk : Book} {shA sh0 : Shelf}
    (hbk : findBook s bid = some bk) (hphys : bk.book_type = .physical)
    (hshelf : bk.shelf_id = some s0) (hne : s0 ≠ a)
    (hA : findShelf s a = some shA) (hcap : shA.current_book_count < shA.total_capacity)
    (hA0 : 0 ≤ shA.current_book_count)
    (h0 : findShelf s s0 = some sh0) (h0pos : 1 ≤ sh0.current_book_count)
    (h0cap : sh0.current_book_count ≤ sh0.total_capacity) :
    ∃ s2, move_book_to_shelf s bid a = (true, s2) ∧
      findBook s2 bid = some { bk with shelf_id := some a } ∧
      findShelf s2 a = some { shA with current_book_count := shA.current_book_count + 1 } ∧
      findShelf s2 s0 = some { sh0 with current_book_count := sh0.current_book_count + (-1) } ∧
      (∀ y, y ≠ a → y ≠ s0 → findShelf s2 y = findShelf s y) ∧
      s2.loans = s.loans ∧ s2.students = s.students := by
  have hval : validate_book_shelf_placement s { bk with shelf_id := some a } = .ok () := by
    simp only [validate_book_shelf_placement]
    rw [if_pos (show Book.book_type { bk with shelf_id := some a } = .physical from hphys)]
    simp only [check_shelf_capacity, hA]
    rw [decide_eq_true hcap]
  have hchkrow : checkBookRow { bk with shelf_id := some a } = true := by
    simp [checkBookRow, hphys]
  have hfind1 : findShelf { s with books := s.books.map (fun x =>
      if x.book_id == bid then { bk with shelf_id := some a } else x) } s0 = some sh0 := h0
  obtain ⟨t1, ht1⟩ := @usbc_ok_of_range { s with books := s.books.map (fun x =>
      if x.book_id == bid then { bk with shelf_id := some a } else x) } s0 (-1) sh0
    hfind1 (by omega) (by omega)
  obtain ⟨sh0b, hfind0b, _, _, ht1tgt, ht1oth⟩ := usbc_ok_spec ht1
  have hsh0b : sh0b = sh0 := by
    rw [hfind1] at hfind0b
    exact (Option.some_injective _ hfind0b).symm
  rw [hsh0b] at ht1tgt
  obtain ⟨ht1books, ht1students, ht1loans⟩ := usbc_frame ht1
  have hfindt1a : findShelf t1 a = some shA := by
    rw [ht1oth a (Ne.symm hne)]
    exact hA
  obtain ⟨t2, ht2⟩ := @usbc_ok_of_range t1 a 1 shA hfindt1a (by omega) (by omega)
  obtain ⟨shAb, hfindAb, _, _, ht2tgt, ht2oth⟩ := usbc_ok_spec ht2
  have hshAb : shAb = shA := by
    rw [hfindt1a] at hfindAb
    exact (Option.some_injective _ hfindAb).symm
  rw [hshAb] at ht2tgt
  obtain ⟨ht2books, ht2students, ht2loans⟩ := usbc_frame ht2
  have htrig : shelfCountTriggerUpdate bk { bk with shelf_id := some a }
      { s with books := s.books.map (fun x =>
        if x.book_id == bid then { bk with shelf_id := some a } else x) } = .ok t2 :=
    @shelfCountTriggerUpdate_shelf_change bk { bk with shelf_id := some a } _
      (by rw [hshelf]; simp [hne]) hphys rfl s0 a hshelf rfl t1 t2 ht1 ht2
  refine ⟨t2, ?_, ?_, ?_, ?_, ?_, ?_, ?_⟩
  · simp only [move_book_to_shelf, hbk]
    rw [if_pos hphys]
    simp only [hval, hchkrow, if_true, htrig]
  · have hbooks : t2.books = s.books.map (fun x =>
        if x.book_id == bid then { bk with shelf_id := some a } else x) := by
      rw [ht2books, ht1books]
    show t2.books.find? (fun t => t.book_id == bid) = _
    rw [hbooks]
    rw [find?_map_key _ _ _ (fun x => by
      by_cases hx : (x.book_id == bid) = true
      · simp only [hx, if_true]
        have hb2 : bk.book_id = bid := by
          have hx2 := book_id_of_findBook hbk
          simpa using hx2
        simp [hb2, hx]
      · simp [hx])]
    rw [show s.books.find? (fun t => t.book_id == bid) = some bk from hbk]
    simp only [Option.map_some']
    rw [if_pos (book_id_of_findBook hbk)]
  · exact ht2tgt
  · rw [ht2oth s0 hne]
    exact ht1tgt
  · intro y hya hys0
    rw [ht2oth y hya, ht1oth y hys0]
    rfl
  · rw [ht2loans, ht1loans]
  · rw [ht2students, ht1students]

/-- Failure of `move_book_to_shelf` never changes the state. -/
theorem move_book_fail_frame (s : DBState) (bid sid : Nat) :
    (move_book_to_shelf s bid sid).1 = false → (move_book_to_shelf s bid sid).2 = s := by
  simp only [move_book_to_shelf]
  split
  · intro _; rfl
  · split
    · split
      · intro _; rfl
      · split
        · split
          · intro _; rfl
          · intro h; exact absurd h (by simp)
        · intro _; rfl
    · intro _; rfl

/-- A capacity-exhausted target shelf makes `move_book_to_shelf` fail with
the caller's state unchanged. -/
theorem move_book_full_shelf (s : DBState) (bid : Nat) (bk : Book)
    (hbk : findBook s bid = some bk) (hphys : bk.book_type = .physical)
    (fid : Nat) (full : Shelf) (hfull : findShelf s fid = some full)
    (hfullcap : full.total_capacity ≤ full.current_book_count) :
    move_book_to_shelf s bid fid = (false, s) := by
  simp only [move_book_to_shelf, hbk]
  rw [if_pos hphys]
  have hval : validate_book_shelf_placement s { bk with shelf_id := some fid }
      = .error .capacityExceeded := by
    simp only [validate_book_shelf_placement]
    rw [if_pos (show Book.book_type { bk with shelf_id := some fid } = .physical from hphys)]
    simp only [check_shelf_capacity, hfull]
    rw [decide_eq_false (by omega)]
  rw [hval]

/-- C8 amended: for a physical book placed on a shelf distinct from two
distinct shelves A and B that both have free capacity (with stored counts
inside the table bounds), AssignShelf to A followed by AssignShelf to B
leaves A's count at its value before the first assignment and leaves B's
count exactly one greater; a reassignment targeting a full shelf fails, and
any failing reassignment leaves the database unchanged — the trigger's
decrement aborts together with the failed increment, so no partial update
survives.  (The claim as frozen is false when the book already sits on A or
B; the counterexample forces the distinctness premises.) -/
theorem assign_shelf_round_trip (s : DBState) (bid a b s0 : Nat) (bk : Book)
    (shA shB sh0 : Shelf)
    (hbk : findBook s bid = some bk) (hphys : bk.book_type = .physical)
    (hshelf : bk.shelf_id = some s0)
    (hne1 : s0 ≠ a) (hne2 : s0 ≠ b) (hne3 : a ≠ b)
    (hA : findShelf s a = some shA) (hAcap : shA.current_book_count < shA.total_capacity)
    (hA0 : 0 ≤ shA.current_book_count)
    (hB : findShelf s b = some shB) (hBcap : shB.current_book_count < shB.total_capacity)
    (hB0 : 0 ≤ shB.current_book_count)
    (h0 : findShelf s s0 = some sh0) (h0pos : 1 ≤ sh0.current_book_count)
    (h0cap : sh0.current_book_count ≤ sh0.total_capacity) :
    ((move_book_to_shelf s bid a).1 = true ∧
     (move_book_to_shelf (move_book_to_shelf s bid a).2 bid b).1 = true ∧
     shelfRecordedCount (move_book_to_shelf (move_book_to_shelf s bid a).2 bid b).2 a
       = shelfRecordedCount s a ∧
     shelfRecordedCount (move_book_to_shelf (move_book_to_shelf s bid a).2 bid b).2 b
       = some (shB.current_book_count + 1)) ∧
    (∀ fid full, findShelf s fid = some full →
      full.total_capacity ≤ full.current_book_count →
      move_book_to_shelf s bid fid = (false, s)) ∧
    ((move_book_to_shelf s bid a).1 = false → (move_book_to_shelf s bid a).2 = s) := by
  obtain ⟨s2, hmv1, hbk2, hA2, h02, hoth2, _, _⟩ :=
    move_book_spec hbk hphys hshelf hne1 hA hAcap hA0 h0 h0pos h0cap
  have hB2 : findShelf s2 b = some shB := by
    rw [hoth2 b (Ne.symm hne3) (Ne.symm hne2)]
    exact hB
  obtain ⟨s3, hmv2, hbk3, hB3, hA3, hoth3, _, _⟩ :=
    @move_book_spec s2 bid b a { bk with shelf_id := some a } shB
      { shA with current_book_count := shA.current_book_count + 1 }
      hbk2 hphys rfl hne3 hB2 hBcap hB0 hA2 (by simp; omega) (by simp; omega)
  have hfst1 : (move_book_to_shelf s bid a).1 = true := by rw [hmv1]
  have hsnd1 : (move_book_to_shelf s bid a).2 = s2 := by rw [hmv1]
  have hfst2 : (move_book_to_shelf s2 bid b).1 = true := by rw [hmv2]
  have hsnd2 : (move_book_to_shelf s2 bid b).2 = s3 := by rw [hmv2]
  refine ⟨⟨hfst1, ?_, ?_, ?_⟩, ?_, move_book_fail_frame s bid a⟩
  · rw [hsnd1]
    exact hfst2
  · rw [hsnd1, hsnd2]
    simp only [shelfRecordedCount, hA3, hA, Option.map_some']
    exact congrArg Option.some (by omega)
  · rw [hsnd1, hsnd2]
    simp only [shelfRecordedCount, hB3, Option.map_some']
  · intro fid full hfull hfullcap
    exact move_book_full_shelf s bid bk hbk hphys fid full hfull hfullcap

/-- Closed instantiation of the round trip on `threeShelfState`: the book
starts on shelf 3, visits shelf 1 (A) and lands on shelf 2 (B); A ends back
at its original count and B ends one higher. -/
theorem assign_shelf_round_trip_witness :
    ((move_book_to_shelf threeShelfState 1 1).1 = true ∧
     (move_book_to_shelf (move_book_to_shelf threeShelfState 1 1).2 1 2).1 = true ∧
     shelfRecordedCount
       (move_book_to_shelf (move_book_to_shelf threeShelfState 1 1).2 1 2).2 1
       = shelfRecordedCount threeShelfState 1 ∧
     shelfRecordedCount
       (move_book_to_shelf (move_book_to_shelf threeShelfState 1 1).2 1 2).2 2
       = some ((0 : Int) + 1)) ∧
    (∀ fid full, findShelf threeShelfState fid = some full →
      full.total_capacity ≤ full.current_book_count →
      move_book_to_shelf threeShelfState 1 fid = (false, threeShelfState)) ∧
    ((move_book_to_shelf threeShelfState 1 1).1 = false →
      (move_book_to_shelf threeShelfState 1 1).2 = threeShelfState) :=
  assign_shelf_round_trip threeShelfState 1 1 2 3 ⟨1, .physical, some 3, .available⟩
    ⟨1, 5, 0⟩ ⟨2, 5, 0⟩ ⟨3, 5, 1⟩ (by rfl) (by rfl) (by rfl)
    (by decide) (by decide) (by decide)
    (by rfl) (by decide) (by decide)
    (by rfl) (by decide) (by decide)
    (by rfl) (by decide) (by decide)

/-! ### Frame lemmas: which operations leave the loans table untouched -/

theorem adjustOptShelf_frame {st t : DBState} {o : Option Nat} {d : Int}
    (h : adjustOptShelf st o d = .ok t) :
    t.books = st.books ∧ t.students = st.students ∧ t.loans = st.loans := by
  cases o with
  | none => cases h; exact ⟨rfl, rfl, rfl⟩
  | some so => exact usbc_frame h

theorem sct_insert_frame {b : Book} {st t : DBState}
    (h : shelfCountTriggerInsert b st = .ok t) :
    t.books = st.books ∧ t.students = st.students ∧ t.loans = st.loans := by
  simp only [shelfCountTriggerInsert] at h
  split at h
  · exact adjustOptShelf_frame h
  · cases h; exact ⟨rfl, rfl, rfl⟩

theorem sct_delete_frame {b : Book} {st t : DBState}
    (h : shelfCountTriggerDelete b st = .ok t) :
    t.books = st.books ∧ t.students = st.students ∧ t.loans = st.loans := by
  simp only [shelfCountTriggerDelete] at h
  split at h
  · exact adjustOptShelf_frame h
  · cases h; exact ⟨rfl, rfl, rfl⟩

theorem sct_update_frame {old new : Book} {st t : DBState}
    (h : shelfCountTriggerUpdate old new st = .ok t) :
    t.books = st.books ∧ t.students = st.students ∧ t.loans = st.loans := by
  unfold shelfCountTriggerUpdate at h
  split at h
  · exact absurd h (by simp)
  · rename_i s1 heq1
    have f1 : s1.books = st.books ∧ s1.students = st.students ∧ s1.loans = st.loans := by
      split at heq1
      · split at heq1
        · exact absurd heq1 (by simp)
        · rename_i sa heqa
          obtain ⟨b1, st1, l1⟩ := adjustOptShelf_frame heqa
          obtain ⟨b2, st2, l2⟩ := adjustOptShelf_frame heq1
          exact ⟨b2.trans b1, st2.trans st1, l2.trans l1⟩
      · cases heq1; exact ⟨rfl, rfl, rfl⟩
    split at h
    · split at h
      · exact absurd h (by simp)
      · rename_i s2 heq2
        have f2 : s2.books = s1.books ∧ s2.students = s1.students ∧ s2.loans = s1.loans := by
          split at heq2
          · exact adjustOptShelf_frame heq2
          · cases heq2; exact ⟨rfl, rfl, rfl⟩
        have f3 : t.books = s2.books ∧ t.students = s2.students ∧ t.loans = s2.loans := by
          split at h
          · exact adjustOptShelf_frame h
          · cases h; exact ⟨rfl, rfl, rfl⟩
        exact ⟨f3.1.trans (f2.1.trans f1.1), f3.2.1.trans (f2.2.1.trans f1.2.1),
          f3.2.2.trans (f2.2.2.trans f1.2.2)⟩
    · cases h; exact f1

theorem create_shelf_loans {s : DBState} {cap : Int} {s' : DBState} {sid : Nat}
    (h : create_shelf s cap = .ok (s', sid)) : s'.loans = s.loans := by
  simp only [create_shelf] at h
  split at h
  · exact absurd h (by simp)
  · rw [Except.ok.injEq, Prod.mk.injEq] at h
    rw [← h.1]

theorem create_student_loans {s : DBState} {stst : StudentStatus} {s' : DBState} {sid : Nat}
    (h : create_student s stst = (s', sid)) : s'.loans = s.loans := by
  simp only [create_student, Prod.mk.injEq] at h
  rw [← h.1]

theorem create_book_loans {s : DBState} {bt : BookType} {shelf : Option Nat}
    {bst : BookStatus} {s' : DBState} {bid : Nat}
    (h : create_book s bt shelf bst = .ok (s', bid)) : s'.loans = s.loans := by
  simp only [create_book] at h
  split at h
  · exact absurd h (by simp)
  · split at h
    · split at h
      · exact absurd h (by simp)
      · rename_i s2 heq
        rw [Except.ok.injEq, Prod.mk.injEq] at h
        rw [← h.1]
        exact (sct_insert_frame heq).2.2
    · exact absurd h (by simp)

theorem move_book_loans (s : DBState) (bid sid : Nat) :
    (move_book_to_shelf s bid sid).2.loans = s.loans := by
  simp only [move_book_to_shelf]
  split
  · rfl
  · split
    · split
      · rfl
      · split
        · split
          · rfl
          · rename_i s2 heq
            exact (sct_update_frame heq).2.2
        · rfl
    · rfl

theorem update_book_loans (s : DBState) (bid : Nat) (bt : BookType) (shelf : Option Nat) :
    (update_book_type_shelf s bid bt shelf).2.loans = s.loans := by
  simp only [update_book_type_shelf]
  split
  · rfl
  · split
    · rfl
    · split
      · split
        · rfl
        · rename_i s2 heq
          exact (sct_update_frame heq).2.2
      · rfl

/-! ### Preservation of the open-loan invariant -/

theorem loanInv_of_loans_eq {s s' : DBState} (h : s'.loans = s.loans)
    (hi : LoanInv s) : LoanInv s' := by
  constructor
  · rw [h]; exact hi.1
  · intro b; rw [h]; exact hi.2 b

theorem loanInv_of_loans_filter {s s' : DBState} {q : Loan → Bool}
    (h : s'.loans = s.loans.filter q) (hi : LoanInv s) : LoanInv s' := by
  constructor
  · rw [h]
    exact hi.1.sublist ((List.filter_sublist s.loans).map Loan.loan_id)
  · intro b
    rw [h, openLoansForBook_length]
    calc List.countP _ (s.loans.filter q)
        ≤ List.countP _ s.loans := (List.filter_sublist s.loans).countP_le _
      _ ≤ 1 := by rw [← openLoansForBook_length]; exact hi.2 b

theorem nodup_ids_map {l : List Loan} (f : Loan → Loan)
    (hf : ∀ x, (f x).loan_id = x.loan_id)
    (h : (l.map Loan.loan_id).Nodup) : ((l.map f).map Loan.loan_id).Nodup := by
  rw [List.map_map]
  have he : l.map (Loan.loan_id ∘ f) = l.map Loan.loan_id :=
    List.map_congr_left (fun a _ => hf a)
  rw [he]
  exact h

theorem loanInv_of_loans_map {s s' : DBState} {f : Loan → Loan}
    (h : s'.loans = s.loans.map f)
    (hid : ∀ x, (f x).loan_id = x.loan_id)
    (hmono : ∀ b : Nat, ∀ x ∈ s.loans,
      ((f x).book_id == b && isOpen (f x).loan_status) = true →
      (x.book_id == b && isOpen x.loan_status) = true)
    (hi : LoanInv s) : LoanInv s' := by
  constructor
  · rw [h]
    exact nodup_ids_map f hid hi.1
  · intro b
    rw [h, openLoansForBook_length]
    calc List.countP _ (s.loans.map f)
        ≤ List.countP (fun l => l.book_id == b && isOpen l.loan_status) s.loans :=
          countP_map_le_of _ _ f s.loans (hmono b)
      _ ≤ 1 := by rw [← openLoansForBook_length]; exact hi.2 b

theorem loanInv_return_book (s : DBState) (today : Int) (lid : Nat) (rd? : Option Int)
    (hi : LoanInv s) : LoanInv (return_book s today lid rd?).2 := by
  simp only [return_book]
  split
  · exact hi
  · split
    · split
      · refine loanInv_of_loans_map rfl ?_ ?_ hi
        · intro x
          by_cases hx : (x.loan_id == lid && isOpen x.loan_status) = true <;> simp [hx]
        · intro b x _ hpf
          by_cases hx : (x.loan_id == lid && isOpen x.loan_status) = true
          · simp only [hx, if_true] at hpf
            simp [isOpen] at hpf
          · simp only [hx, Bool.false_eq_true, if_false] at hpf
            exact hpf
      · exact hi
    · exact hi

theorem loanInv_renew_loan (s : DBState) (today : Int) (lid : Nat) (newDate : Int)
    (hi : LoanInv s) : LoanInv (renew_loan s today lid newDate).2 := by
  simp only [renew_loan]
  split
  · exact hi
  · split
    · refine loanInv_of_loans_map rfl ?_ ?_ hi
      · intro x
        by_cases hx : (x.loan_id == lid && isActive x.loan_status) = true <;> simp [hx]
      · intro b x _ hpf
        by_cases hx : (x.loan_id == lid && isActive x.loan_status) = true
        · simp only [hx, if_true] at hpf
          simpa using hpf
        · simp only [hx, Bool.false_eq_true, if_false] at hpf
          exact hpf
    · exact hi

theorem loanInv_sweep (s : DBState) (today : Int)
    (hi : LoanInv s) : LoanInv (update_overdue_loans s today).2 := by
  simp only [update_overdue_loans]
  refine loanInv_of_loans_map rfl ?_ ?_ hi
  · intro x
    by_cases hx : sweepQualifies today x = true <;> simp [hx]
  · intro b x _ hpf
    by_cases hx : sweepQualifies today x = true
    · simp only [hx, if_true] at hpf
      have hact : isActive x.loan_status = true := by
        simp only [sweepQualifies, Bool.and_eq_true] at hx
        exact hx.1.1
      rw [Bool.and_eq_true] at hpf ⊢
      refine ⟨hpf.1, ?_⟩
      cases hst : x.loan_status <;> simp [isOpen] <;> rw [hst] at hact <;>
        simp [isActive] at hact
    · simp only [hx, Bool.false_eq_true, if_false] at hpf
      exact hpf

theorem loanInv_delete_loan (s : DBState) (lid : Nat)
    (hi : LoanInv s) : LoanInv (delete_loan s lid).2 := by
  simp only [delete_loan]
  split
  · exact hi
  · split
    · exact loanInv_of_loans_filter rfl hi
    · exact hi

theorem loanInv_delete_book (s : DBState) (bid : Nat)
    (hi : LoanInv s) : LoanInv (delete_book s bid).2 := by
  simp only [delete_book]
  split
  · exact hi
  · split
    · exact hi
    · rename_i s2 heq
      have hl := (sct_delete_frame heq).2.2
      exact loanInv_of_loans_filter hl hi

theorem loanInv_delete_student (s : DBState) (sid : Nat)
    (hi : LoanInv s) : LoanInv (delete_student s sid).2 := by
  simp only [delete_student]
  split
  · exact hi
  · exact loanInv_of_loans_filter rfl hi

theorem loan_id_le_max (l : List Loan) (x : Loan) (hx : x ∈ l) :
    x.loan_id ≤ l.foldr (fun t m => max t.loan_id m) 0 := by
  induction l with
  | nil => cases hx
  | cons a t ih =>
    rcases List.mem_cons.mp hx with rfl | hmem
    · exact le_max_left _ _
    · exact le_trans (ih hmem) (le_max_right _ _)

theorem freshLoanId_not_mem (s : DBState) :
    ∀ x ∈ s.loans, x.loan_id ≠ freshLoanId s := by
  intro x hx heq
  have hle := loan_id_le_max s.loans x hx
  rw [heq] at hle
  simp only [freshLoanId] at hle
  omega

theorem loanInv_create_loan {s : DBState} {today : Int} {bookId studentId : Nat}
    {ld est : Option Int} {s' : DBState} {lid : Nat}
    (h : create_loan s today bookId studentId ld est = .ok (s', lid))
    (hi : LoanInv s) : LoanInv s' := by
  obtain ⟨bk, stu, _, _, _, _, _, hempty, hlid, _, hloans, _, _, _⟩ := create_loan_ok_spec h
  constructor
  · rw [hloans, List.map_cons, List.nodup_cons]
    constructor
    · intro hmem
      rw [List.mem_map] at hmem
      obtain ⟨x, hx, hxid⟩ := hmem
      exact freshLoanId_not_mem s x hx (by rw [hxid, hlid])
    · exact hi.1
  · intro b
    rw [hloans, openLoansForBook, List.filter_cons]
    by_cases hb : bookId = b
    · subst hb
      rw [if_pos (by simp [isOpen])]
      have he : s.loans.filter
          (fun l => l.book_id == bookId && isOpen l.loan_status) = [] := hempty
      rw [he]
      simp
    · rw [if_neg (by simp [isOpen, hb])]
      exact hi.2 b

theorem loanInv_update_status (s : DBState) (today : Int) (lid : Nat) (ns : LoanStatus)
    (hi : LoanInv s) : LoanInv (update_status s today lid ns).2 := by
  simp only [update_status]
  split
  · exact hi
  · rename_i L hfind
    split
    · split
      · exact hi
      · rename_i hidx
        have hLmem : L ∈ s.loans := List.mem_of_find?_eq_some hfind
        have hLid : L.loan_id = lid := by simpa using loan_id_of_findLoan hfind
        constructor
        · refine nodup_ids_map _ ?_ hi.1
          intro x
          by_cases hx : (x.loan_id == lid) = true <;> simp [hx]
        · intro b
          rw [openLoansForBook_length]
          by_cases hopen : isOpen ns = true
          · have hany : s.loans.any (fun x =>
                !(x.loan_id == lid) && x.book_id == L.book_id && isOpen x.loan_status)
                = false := by
              cases hany2 : s.loans.any (fun x =>
                  !(x.loan_id == lid) && x.book_id == L.book_id && isOpen x.loan_status) with
              | false => rfl
              | true => exact absurd (by rw [hopen, hany2]; rfl) hidx
            rw [List.any_eq_false] at hany
            by_cases hb : b = L.book_id
            · subst hb
              refine le_trans ?_ (countP_key_le_one s.loans lid hi.1)
              apply countP_map_le_of
              intro x hx hpf
              by_cases hxl : (x.loan_id == lid) = true
              · exact hxl
              · exfalso
                simp only [hxl, Bool.false_eq_true, if_false] at hpf
                rw [Bool.and_eq_true] at hpf
                refine hany x hx ?_
                rw [Bool.and_eq_true, Bool.and_eq_true]
                exact ⟨⟨by simp [hxl], hpf.1⟩, hpf.2⟩
            · refine le_trans ?_ (show List.countP
                (fun l => l.book_id == b && isOpen l.loan_status) s.loans ≤ 1 from
                by rw [← openLoansForBook_length]; exact hi.2 b)
              apply countP_map_le_of
              intro x hx hpf
              by_cases hxl : (x.loan_id == lid) = true
              · exfalso
                have hxL : x = L := List.inj_on_of_nodup_map hi.1 hx hLmem
                  (by rw [show x.loan_id = lid by simpa using hxl, hLid])
                subst hxL
                simp only [hxl, if_true] at hpf
                rw [Bool.and_eq_true] at hpf
                have hxb : x.book_id = b := by simpa using hpf.1
                exact hb (by rw [← hxb])
              · simp only [hxl, Bool.false_eq_true, if_false] at hpf
                exact hpf
          · refine le_trans ?_ (show List.countP
                (fun l => l.book_id == b && isOpen l.loan_status) s.loans ≤ 1 from
                by rw [← openLoansForBook_length]; exact hi.2 b)
            apply countP_map_le_of
            intro x hx hpf
            by_cases hxl : (x.loan_id == lid) = true
            · exfalso
              simp only [hxl, if_true] at hpf
              rw [Bool.and_eq_true] at hpf
              exact hopen hpf.2
            · simp only [hxl, Bool.false_eq_true, if_false] at hpf
              exact hpf
    · exact hi

theorem loanInv_step {s s' : DBState} (hs : Step s s') (hi : LoanInv s) : LoanInv s' := by
  cases hs with
  | createShelf cap s' sid heq =>
    exact loanInv_of_loans_eq (create_shelf_loans heq) hi
  | createStudent stst s' sid heq =>
    exact loanInv_of_loans_eq (create_student_loans heq) hi
  | createBook bt shelf bst s' bid heq =>
    exact loanInv_of_loans_eq (create_book_loans heq) hi
  | createLoan today bookId studentId ld est s' lid heq =>
    exact loanInv_create_loan heq hi
  | returnBook today lid rd? ok s' heq =>
    have h2 : s' = (return_book s today lid rd?).2 := by rw [heq]
    rw [h2]
    exact loanInv_return_book s today lid rd? hi
  | renewLoan today lid newDate ok s' heq =>
    have h2 : s' = (renew_loan s today lid newDate).2 := by rw [heq]
    rw [h2]
    exact loanInv_renew_loan s today lid newDate hi
  | updateStatus today lid ns ok s' heq =>
    have h2 : s' = (update_status s today lid ns).2 := by rw [heq]
    rw [h2]
    exact loanInv_update_status s today lid ns hi
  | sweep today n s' heq =>
    have h2 : s' = (update_overdue_loans s today).2 := by rw [heq]
    rw [h2]
    exact loanInv_sweep s today hi
  | deleteLoan lid ok s' heq =>
    have h2 : s' = (delete_loan s lid).2 := by rw [heq]
    rw [h2]
    exact loanInv_delete_loan s lid hi
  | deleteBook bid ok s' heq =>
    have h2 : s' = (delete_book s bid).2 := by rw [heq]
    rw [h2]
    exact loanInv_delete_book s bid hi
  | deleteStudent sid ok s' heq =>
    have h2 : s' = (delete_student s sid).2 := by rw [heq]
    rw [h2]
    exact loanInv_delete_student s sid hi
  | moveBook bid sid ok s' heq =>
    have h2 : s' = (move_book_to_shelf s bid sid).2 := by rw [heq]
    exact loanInv_of_loans_eq (by rw [h2]; exact move_book_loans s bid sid) hi
  | updateBook bid bt shelf ok s' heq =>
    have h2 : s' = (update_book_type_shelf s bid bt shelf).2 := by rw [heq]
    exact loanInv_of_loans_eq (by rw [h2]; exact update_book_loans s bid bt shelf) hi

theorem loanInv_reachable {s : DBState} (h : Reachable s) : LoanInv s := by
  induction h with
  | init =>
    constructor
    · simp [initState]
    · intro b
      simp [initState, openLoansForBook]
  | step _ hstep ih => exact loanInv_step hstep ih

/-! ### Claim C2: at most one open loan per book -/

/-- C2: at every database state reachable from the empty database through
the engine's operation surface, each book has at most one loan whose status
is active or overdue; and whenever a book already has an open loan, any
attempt to create another loan for it fails with an error (the availability
check or the partial unique index `idx_loans_unique_active_book` rejects the
insert), so the failed all-or-nothing insert leaves the loan store
unchanged. -/
theorem at_most_one_open_loan_per_book :
    (∀ s, Reachable s → ∀ b, (openLoansForBook s.loans b).length ≤ 1) ∧
    (∀ (s : DBState) (bid : Nat), openLoansForBook s.loans bid ≠ [] →
      ∀ (today : Int) (sid : Nat) (ld est : Option Int),
        ∃ e, create_loan s today bid sid ld est = .error e) := by
  constructor
  · intro s hr b
    exact (loanInv_reachable hr).2 b
  · intro s bid hopen today sid ld est
    cases hres : create_loan s today bid sid ld est with
    | error e => exact ⟨e, rfl⟩
    | ok r =>
      obtain ⟨s2, lid⟩ := r
      obtain ⟨_, _, _, _, _, _, _, hempty, _⟩ := create_loan_ok_spec hres
      exact absurd hempty hopen

/-- Closed instantiation of the double-lending protection: the invariant
holds at the initial database, and in `overdueLoanState` book 1 already has
an open loan, so a further creation attempt fails with an error. -/
theorem at_most_one_open_loan_per_book_witness :
    (openLoansForBook initState.loans 1).length ≤ 1 ∧
    ∃ e, create_loan overdueLoanState 30 1 1 none none = .error e :=
  ⟨at_most_one_open_loan_per_book.1 initState Reachable.init 1,
   at_most_one_open_loan_per_book.2 overdueLoanState 1 (by decide) 30 1 none none⟩

end BookSystem
